import Mathlib

/-!
Shallow embedding of `src/src/sfnt/ttcolr.c` (FreeType `COLR` v0/v1 table
support) and proofs about it.

Modelling conventions:
* The table is a `List Nat` of bytes; pointers into the table are `Nat`
  offsets from the table start (`table` in the C code).
* Every `FT_NEXT_USHORT`/`FT_NEXT_ULONG`/... read is a checked big-endian
  read returning `Option`; `none` models a read outside the table buffer
  (undefined behaviour in the C program).  Functions that perform reads
  therefore return `Option` results, `none` meaning "an out-of-bounds read
  occurred".
* `FT_UShort`/`FT_ULong`/`FT_UInt` values are `Nat`; `FT_Short`/`FT_Long`
  values are `Int` (two's-complement decoded); narrowing stores are explicit
  `% 2^w`.
* C structs written through output pointers are threaded as explicit state:
  each embedded function takes the previous struct value and returns the
  updated one, so partial writes before a failing check are modelled exactly.
-/

namespace TTColr

/-- `data[p]` with bounds check: one byte of the table buffer. -/
def byteAt (data : List Nat) (p : Nat) : Option Nat := data[p]?

/-- `FT_NEXT_USHORT`: big-endian 16-bit read at offset `p`. -/
def readU16 (data : List Nat) (p : Nat) : Option Nat := do
  let b0 ← data[p]?
  let b1 ← data[p+1]?
  pure (b0 * 256 + b1)

/-- `FT_NEXT_ULONG` / `FT_PEEK_ULONG`: big-endian 32-bit read at offset `p`. -/
def readU32 (data : List Nat) (p : Nat) : Option Nat := do
  let b0 ← data[p]?
  let b1 ← data[p+1]?
  let b2 ← data[p+2]?
  let b3 ← data[p+3]?
  pure (((b0 * 256 + b1) * 256 + b2) * 256 + b3)

/-- Two's-complement interpretation of a 16-bit value. -/
def toSigned16 (v : Nat) : Int := if v < 32768 then (v : Int) else (v : Int) - 65536

/-- Two's-complement interpretation of a 32-bit value. -/
def toSigned32 (v : Nat) : Int :=
  if v < 2147483648 then (v : Int) else (v : Int) - 4294967296

/-- `FT_NEXT_SHORT`: big-endian signed 16-bit read. -/
def readS16 (data : List Nat) (p : Nat) : Option Int := (readU16 data p).map toSigned16

/-- `FT_NEXT_LONG`: big-endian signed 32-bit read. -/
def readS32 (data : List Nat) (p : Nat) : Option Int := (readU32 data p).map toSigned32

/-- Total big-endian 16-bit view (missing bytes read as 0); agrees with
`readU16` whenever the read is in bounds. -/
def u16At (data : List Nat) (p : Nat) : Nat := data.getD p 0 * 256 + data.getD (p+1) 0

/-- Total big-endian 32-bit view; agrees with `readU32` in bounds. -/
def u32At (data : List Nat) (p : Nat) : Nat :=
  ((data.getD p 0 * 256 + data.getD (p+1) 0) * 256 + data.getD (p+2) 0) * 256
    + data.getD (p+3) 0

theorem readU16_eq_of_le (data : List Nat) (p : Nat) (h : p + 2 ≤ data.length) :
    readU16 data p = some (u16At data p) := by
  have h0 : p < data.length := by omega
  have h1 : p + 1 < data.length := by omega
  simp [readU16, u16At, List.getElem?_eq_getElem, h0, h1, List.getD_eq_getElem?_getD,
    List.getElem?_eq_getElem]

theorem readU32_eq_of_le (data : List Nat) (p : Nat) (h : p + 4 ≤ data.length) :
    readU32 data p = some (u32At data p) := by
  have h0 : p < data.length := by omega
  have h1 : p + 1 < data.length := by omega
  have h2 : p + 2 < data.length := by omega
  have h3 : p + 3 < data.length := by omega
  simp [readU32, u32At, List.getElem?_eq_getElem, h0, h1, h2, h3,
    List.getD_eq_getElem?_getD, List.getElem?_eq_getElem]

/-! Record sizes, from the `#define`s at the top of `ttcolr.c`. -/

def BASE_GLYPH_SIZE : Nat := 6
def BASE_GLYPH_V1_SIZE : Nat := 6
def LAYER_V1_RECORD_SIZE : Nat := 6
def COLOR_STOP_SIZE : Nat := 6
def LAYER_SIZE : Nat := 4
def COLR_HEADER_SIZE : Nat := 14

/-- Error outcomes of `tt_face_load_colr`.  `OobRead` marks a read past the
end of the extracted frame (undefined behaviour in the C program). -/
inductive LoadErr where
  | InvalidFileFormat
  | InvalidTable
  | OobRead
deriving DecidableEq, Repr

/-- The `Colr` struct built by `tt_face_load_colr`.  The C pointer fields
`base_glyphs`, `layers` and `base_glyphs_v1` are stored as offsets from the
start of the table buffer (`base_glyphs_v1 = none` models the NULL pointer of
a version-0 table). -/
structure Colr where
  version : Nat
  num_base_glyphs : Nat
  num_layers : Nat
  base_glyphs : Nat
  layers : Nat
  num_base_glyphs_v1 : Nat
  base_glyphs_v1 : Option Nat
  table_size : Nat
  data : List Nat
deriving DecidableEq, Repr

/-- Checked 16-bit read inside the loader's error monad. -/
def rdU16E (data : List Nat) (p : Nat) : Except LoadErr Nat :=
  match readU16 data p with
  | some v => .ok v
  | none => .error .OobRead

/-- Checked 32-bit read inside the loader's error monad. -/
def rdU32E (data : List Nat) (p : Nat) : Except LoadErr Nat :=
  match readU32 data p with
  | some v => .ok v
  | none => .error .OobRead

/-- `tt_face_load_colr` (ttcolr.c:94-186).  `cpal` models `face->cpal`;
the stream is modelled as already delivering the table bytes `data`, whose
length is the `table_size` reported by `goto_table`.  The stored
`num_base_glyphs_v1` is truncated to `FT_UShort` exactly as the assignment to
the 16-bit struct field does in C. -/
def tt_face_load_colr (cpal : Bool) (data : List Nat) : Except LoadErr Colr := do
  if !cpal then throw .InvalidFileFormat
  let table_size := data.length
  if table_size < COLR_HEADER_SIZE then throw .InvalidTable
  let version ← rdU16E data 0
  if version ≠ 0 ∧ version ≠ 1 then throw .InvalidTable
  let num_base_glyphs ← rdU16E data 2
  let base_glyph_offset ← rdU32E data 4
  if base_glyph_offset ≥ table_size then throw .InvalidTable
  if num_base_glyphs * BASE_GLYPH_SIZE > table_size - base_glyph_offset then
    throw .InvalidTable
  let layer_offset ← rdU32E data 8
  let num_layers ← rdU16E data 12
  if layer_offset ≥ table_size then throw .InvalidTable
  if num_layers * LAYER_SIZE > table_size - layer_offset then throw .InvalidTable
  if version = 1 then
    let base_glyphs_v1_offset ← rdU32E data 14
    if base_glyphs_v1_offset ≥ table_size then throw .InvalidTable
    let num_base_glyphs_v1 ← rdU32E data base_glyphs_v1_offset
    if num_base_glyphs_v1 * BASE_GLYPH_V1_SIZE > table_size - base_glyphs_v1_offset then
      throw .InvalidTable
    pure { version := version, num_base_glyphs := num_base_glyphs,
           num_layers := num_layers, base_glyphs := base_glyph_offset,
           layers := layer_offset,
           num_base_glyphs_v1 := num_base_glyphs_v1 % 65536,
           base_glyphs_v1 := some base_glyphs_v1_offset,
           table_size := table_size, data := data }
  else
    pure { version := version, num_base_glyphs := num_base_glyphs,
           num_layers := num_layers, base_glyphs := base_glyph_offset,
           layers := layer_offset, num_base_glyphs_v1 := 0,
           base_glyphs_v1 := none, table_size := table_size, data := data }

theorem rdU16E_eq (data : List Nat) (p : Nat) (h : p + 2 ≤ data.length) :
    rdU16E data p = .ok (u16At data p) := by
  rw [rdU16E, readU16_eq_of_le data p h]

theorem rdU32E_eq (data : List Nat) (p : Nat) (h : p + 4 ≤ data.length) :
    rdU32E data p = .ok (u32At data p) := by
  rw [rdU32E, readU32_eq_of_le data p h]

/-- C2, part 1: whenever the loader succeeds, the header was at least the
minimum size, the version is 0 or 1, and every accepted offset/count pair
fits inside the table. -/
theorem load_ok_inv (data : List Nat) (colr : Colr)
    (h : tt_face_load_colr true data = .ok colr) :
    colr.data = data ∧ colr.table_size = data.length ∧
    COLR_HEADER_SIZE ≤ data.length ∧
    (colr.version = 0 ∨ colr.version = 1) ∧
    colr.base_glyphs + colr.num_base_glyphs * BASE_GLYPH_SIZE ≤ colr.table_size ∧
    colr.layers + colr.num_layers * LAYER_SIZE ≤ colr.table_size ∧
    (∀ off, colr.base_glyphs_v1 = some off →
      off + colr.num_base_glyphs_v1 * BASE_GLYPH_V1_SIZE ≤ colr.table_size) := by
  unfold tt_face_load_colr at h
  simp only [Bool.not_true, Bool.false_eq_true, if_false, bind, Except.bind, pure,
    Except.pure, throw,
    throwThe, MonadExceptOf.throw, BASE_GLYPH_SIZE, LAYER_SIZE, BASE_GLYPH_V1_SIZE,
    COLR_HEADER_SIZE] at h ⊢
  repeat' split at h
  all_goals first
  | (injection h with h; subst h; dsimp only
     refine ⟨rfl, rfl, by omega, by tauto, by omega, by omega, ?_⟩
     rintro off hoff
     cases hoff <;> omega)
  | injection h

/-- C2, part 3: a table shorter than the 14-byte header is rejected. -/
theorem load_fail_small (data : List Nat) (h : data.length < COLR_HEADER_SIZE) :
    tt_face_load_colr true data = .error .InvalidTable := by
  unfold tt_face_load_colr
  simp [h, bind, Except.bind, throw, throwThe, MonadExceptOf.throw, pure, Except.pure]

/-- C2, part 2: with CPAL present, failures are `InvalidTable`, except for the
unchecked 4-byte count peek, which can read past the frame end. -/
theorem rdU16E_error_iff (data : List Nat) (p : Nat) (e : LoadErr) :
    rdU16E data p = .error e ↔ (readU16 data p = none ∧ e = .OobRead) := by
  unfold rdU16E
  rcases h : readU16 data p with _ | v <;> simp [h, eq_comm]

theorem rdU32E_error_iff (data : List Nat) (p : Nat) (e : LoadErr) :
    rdU32E data p = .error e ↔ (readU32 data p = none ∧ e = .OobRead) := by
  unfold rdU32E
  rcases h : readU32 data p with _ | v <;> simp [h, eq_comm]

theorem load_error_inv (data : List Nat) (e : LoadErr)
    (h : tt_face_load_colr true data = .error e) :
    e = .InvalidTable ∨ e = .OobRead := by
  by_cases h14 : data.length < COLR_HEADER_SIZE
  · rw [load_fail_small data h14] at h
    injection h with h
    exact Or.inl h.symm
  · have h14' : ¬ data.length < 14 := by simpa [COLR_HEADER_SIZE] using h14
    unfold tt_face_load_colr at h
    simp only [Bool.not_true, Bool.false_eq_true, if_false, bind, Except.bind, pure,
      Except.pure, throw,
      throwThe, MonadExceptOf.throw, COLR_HEADER_SIZE, h14', rdU16E_eq data 0 (by omega),
      rdU16E_eq data 2 (by omega), rdU32E_eq data 4 (by omega),
      rdU32E_eq data 8 (by omega), rdU16E_eq data 12 (by omega)] at h
    rcases h32a : readU32 data 14 with _ | v14
    · simp only [rdU32E, h32a, Except.bind] at h
      repeat' split at h
      all_goals first
      | (injection h with h; subst h; simp)
      | injection h
    · simp only [rdU32E, h32a, Except.bind] at h
      rcases h32b : readU32 data v14 with _ | nv1
      · simp only [h32b] at h
        repeat' split at h
        all_goals first
        | (injection h with h; subst h; simp)
        | injection h
      · simp only [h32b] at h
        repeat' split at h
        all_goals first
        | (injection h with h; subst h; simp)
        | injection h

/-- C2, part 4: any failed version-0-area validation (bad version, base-glyph
or layer array not fitting) yields `InvalidTable`. -/
theorem load_fail_checks (data : List Nat) (h14 : COLR_HEADER_SIZE ≤ data.length)
    (hfail : (u16At data 0 ≠ 0 ∧ u16At data 0 ≠ 1) ∨
             data.length ≤ u32At data 4 ∨
             u16At data 2 * BASE_GLYPH_SIZE > data.length - u32At data 4 ∨
             data.length ≤ u32At data 8 ∨
             u16At data 12 * LAYER_SIZE > data.length - u32At data 8) :
    tt_face_load_colr true data = .error .InvalidTable := by
  have h14n : 14 ≤ data.length := by simpa [COLR_HEADER_SIZE] using h14
  have h14' : ¬ data.length < 14 := by omega
  simp only [BASE_GLYPH_SIZE, LAYER_SIZE] at hfail
  unfold tt_face_load_colr
  simp only [Bool.not_true, Bool.false_eq_true, if_false, bind, Except.bind, pure,
    Except.pure, throw, throwThe, MonadExceptOf.throw, COLR_HEADER_SIZE, BASE_GLYPH_SIZE,
    LAYER_SIZE, BASE_GLYPH_V1_SIZE, h14',
    rdU16E_eq data 0 (by omega), rdU16E_eq data 2 (by omega), rdU32E_eq data 4 (by omega),
    rdU32E_eq data 8 (by omega), rdU16E_eq data 12 (by omega)]
  repeat' split
  all_goals first
  | rfl
  | (exfalso; omega)

/-- C2, part 5: for a version-1 table passing the version-0-area checks, a
v1 base-glyph array offset or count that does not fit yields `InvalidTable`. -/
theorem load_fail_v1 (data : List Nat) (h18 : COLR_HEADER_SIZE + 4 ≤ data.length)
    (hver : u16At data 0 = 1)
    (hbg : u32At data 4 < data.length ∧
           u16At data 2 * BASE_GLYPH_SIZE ≤ data.length - u32At data 4)
    (hly : u32At data 8 < data.length ∧
           u16At data 12 * LAYER_SIZE ≤ data.length - u32At data 8)
    (hfail : data.length ≤ u32At data 14 ∨
             (u32At data 14 + 4 ≤ data.length ∧
              u32At data (u32At data 14) * BASE_GLYPH_V1_SIZE >
                data.length - u32At data 14)) :
    tt_face_load_colr true data = .error .InvalidTable := by
  have h18n : 18 ≤ data.length := by simpa [COLR_HEADER_SIZE] using h18
  have h14' : ¬ data.length < 14 := by omega
  simp only [BASE_GLYPH_SIZE] at hbg
  simp only [LAYER_SIZE] at hly
  simp only [BASE_GLYPH_V1_SIZE] at hfail
  unfold tt_face_load_colr
  rcases hfail with hfail | ⟨hlt, hcnt⟩
  · simp only [Bool.not_true, Bool.false_eq_true, if_false, bind, Except.bind, pure,
      Except.pure, throw, throwThe, MonadExceptOf.throw, COLR_HEADER_SIZE, BASE_GLYPH_SIZE,
      LAYER_SIZE, BASE_GLYPH_V1_SIZE, h14',
      rdU16E_eq data 0 (by omega), rdU16E_eq data 2 (by omega),
      rdU32E_eq data 4 (by omega), rdU32E_eq data 8 (by omega),
      rdU16E_eq data 12 (by omega), rdU32E_eq data 14 (by omega)]
    repeat' split
    all_goals first
    | rfl
    | (exfalso; omega)
  · simp only [Bool.not_true, Bool.false_eq_true, if_false, bind, Except.bind, pure,
      Except.pure, throw, throwThe, MonadExceptOf.throw, COLR_HEADER_SIZE, BASE_GLYPH_SIZE,
      LAYER_SIZE, BASE_GLYPH_V1_SIZE, h14',
      rdU16E_eq data 0 (by omega), rdU16E_eq data 2 (by omega),
      rdU32E_eq data 4 (by omega), rdU32E_eq data 8 (by omega),
      rdU16E_eq data 12 (by omega), rdU32E_eq data 14 (by omega),
      rdU32E_eq data (u32At data 14) (by omega)]
    repeat' split
    all_goals first
    | rfl
    | (exfalso; omega)

/-- C2: the Table Decoder succeeds only if the header is at least the minimum
size, the version is 0 or 1, and every accepted offset/count pair fits within
the table; every validation failure yields the single `InvalidTable` outcome
(the unchecked v1 count peek itself can read out of bounds, modelled as the
separate `OobRead` outcome), and an error result carries no table. -/
theorem claim_C2 :
    (∀ data colr, tt_face_load_colr true data = .ok colr →
      colr.data = data ∧ colr.table_size = data.length ∧
      COLR_HEADER_SIZE ≤ data.length ∧
      (colr.version = 0 ∨ colr.version = 1) ∧
      colr.base_glyphs + colr.num_base_glyphs * BASE_GLYPH_SIZE ≤ colr.table_size ∧
      colr.layers + colr.num_layers * LAYER_SIZE ≤ colr.table_size ∧
      (∀ off, colr.base_glyphs_v1 = some off →
        off + colr.num_base_glyphs_v1 * BASE_GLYPH_V1_SIZE ≤ colr.table_size)) ∧
    (∀ data e, tt_face_load_colr true data = .error e →
      e = .InvalidTable ∨ e = .OobRead) ∧
    (∀ data, data.length < COLR_HEADER_SIZE →
      tt_face_load_colr true data = .error .InvalidTable) ∧
    (∀ data, COLR_HEADER_SIZE ≤ data.length →
      ((u16At data 0 ≠ 0 ∧ u16At data 0 ≠ 1) ∨
       data.length ≤ u32At data 4 ∨
       u16At data 2 * BASE_GLYPH_SIZE > data.length - u32At data 4 ∨
       data.length ≤ u32At data 8 ∨
       u16At data 12 * LAYER_SIZE > data.length - u32At data 8) →
      tt_face_load_colr true data = .error .InvalidTable) ∧
    (∀ data, COLR_HEADER_SIZE + 4 ≤ data.length → u16At data 0 = 1 →
      (u32At data 4 < data.length ∧
       u16At data 2 * BASE_GLYPH_SIZE ≤ data.length - u32At data 4) →
      (u32At data 8 < data.length ∧
       u16At data 12 * LAYER_SIZE ≤ data.length - u32At data 8) →
      (data.length ≤ u32At data 14 ∨
       (u32At data 14 + 4 ≤ data.length ∧
        u32At data (u32At data 14) * BASE_GLYPH_V1_SIZE >
          data.length - u32At data 14)) →
      tt_face_load_colr true data = .error .InvalidTable) :=
  ⟨load_ok_inv, load_error_inv, load_fail_small, load_fail_checks, load_fail_v1⟩

/-- Concrete instantiation of C2: the empty buffer is rejected with
`InvalidTable`, and a minimal all-zero 14-byte version-0 header is accepted
with all offset/count pairs inside the table. -/
theorem claim_C2_witness :
    tt_face_load_colr true [] = .error .InvalidTable ∧
    (0 + 0 * BASE_GLYPH_SIZE ≤ 14 ∧ (0 = 0 ∨ (0 : Nat) = 1)) := by
  refine ⟨claim_C2.2.2.1 [] (by decide), ?_, ?_⟩
  · exact (claim_C2.1 (List.replicate 14 0) ⟨0, 0, 0, 0, 0, 0, none, 14, List.replicate 14 0⟩
      (by rfl)).2.2.2.2.1
  · exact (claim_C2.1 (List.replicate 14 0) ⟨0, 0, 0, 0, 0, 0, none, 14, List.replicate 14 0⟩
      (by rfl)).2.2.2.1

/-- `BaseGlyphRecord` (ttcolr.c:50-56). -/
structure BaseGlyphRecord where
  gid : Nat
  first_layer_index : Nat
  num_layers : Nat
deriving DecidableEq, Repr

/-- `BaseGlyphV1Record` (ttcolr.c:58-63). -/
structure BaseGlyphV1Record where
  gid : Nat
  layer_array_offset : Nat
deriving DecidableEq, Repr

/-- Loop of `find_base_glyph_record` (ttcolr.c:206-239): integer binary
search with midpoint `min + (max - min) / 2`, reading the 16-bit glyph id at
`base_glyph_begin + mid * BASE_GLYPH_SIZE`.  `min`/`max` are the C `FT_Int`
variables; the outer `Option` is the out-of-bounds-read marker.  `fuel` only
bounds the number of iterations so the recursion is structural (and hence
kernel-computable); since the interval `[min, max]` shrinks strictly each
iteration, any `fuel > max + 1 - min` is enough, and
`find_base_glyph_record` passes one more than the array size. -/
def find_base_glyph_loop (data : List Nat) (base_glyph_begin : Nat) (glyph_id : Nat) :
    Nat → Int → Int → Option (Option BaseGlyphRecord)
  | 0, _, _ => some none
  | fuel + 1, min, max =>
    if min ≤ max then
      let mid : Int := min + (max - min) / 2
      match readU16 data (base_glyph_begin + mid.toNat * BASE_GLYPH_SIZE) with
      | none => none
      | some gid =>
        if gid < glyph_id then
          find_base_glyph_loop data base_glyph_begin glyph_id fuel (mid + 1) max
        else if gid > glyph_id then
          find_base_glyph_loop data base_glyph_begin glyph_id fuel min (mid - 1)
        else
          match readU16 data (base_glyph_begin + mid.toNat * BASE_GLYPH_SIZE + 2),
                readU16 data (base_glyph_begin + mid.toNat * BASE_GLYPH_SIZE + 4) with
          | some fli, some nl => some (some ⟨gid, fli, nl⟩)
          | _, _ => none
    else some none

/-- `find_base_glyph_record` (ttcolr.c:206-239). -/
def find_base_glyph_record (data : List Nat) (base_glyph_begin : Nat)
    (num_base_glyph : Nat) (glyph_id : Nat) : Option (Option BaseGlyphRecord) :=
  find_base_glyph_loop data base_glyph_begin glyph_id (num_base_glyph + 1) 0
    ((num_base_glyph : Int) - 1)

/-- Loop of `find_base_glyph_v1_record` (ttcolr.c:440-472): as
`find_base_glyph_loop`, but records start 4 bytes into the array (after the
32-bit array length) and carry a 32-bit layer-array offset. -/
def find_base_glyph_v1_loop (data : List Nat) (base_glyph_begin : Nat) (glyph_id : Nat) :
    Nat → Int → Int → Option (Option BaseGlyphV1Record)
  | 0, _, _ => some none
  | fuel + 1, min, max =>
    if min ≤ max then
      let mid : Int := min + (max - min) / 2
      match readU16 data (base_glyph_begin + 4 + mid.toNat * BASE_GLYPH_V1_SIZE) with
      | none => none
      | some gid =>
        if gid < glyph_id then
          find_base_glyph_v1_loop data base_glyph_begin glyph_id fuel (mid + 1) max
        else if gid > glyph_id then
          find_base_glyph_v1_loop data base_glyph_begin glyph_id fuel min (mid - 1)
        else
          match readU32 data (base_glyph_begin + 4 + mid.toNat * BASE_GLYPH_V1_SIZE + 2) with
          | some lao => some (some ⟨gid, lao⟩)
          | none => none
    else some none

/-- `find_base_glyph_v1_record` (ttcolr.c:440-472). -/
def find_base_glyph_v1_record (data : List Nat) (base_glyph_begin : Nat)
    (num_base_glyph : Nat) (glyph_id : Nat) : Option (Option BaseGlyphV1Record) :=
  find_base_glyph_v1_loop data base_glyph_begin glyph_id (num_base_glyph + 1) 0
    ((num_base_glyph : Int) - 1)

/-- `FT_Color`: one resolved 8-bit-per-channel palette entry. -/
structure FT_Color where
  blue : Nat
  green : Nat
  red : Nat
  alpha : Nat
deriving DecidableEq, Repr

/-- The fields of `TT_Face` that the traversal and blend functions consult:
`FT_FACE(face)->num_glyphs`, `face->palette_data.num_palette_entries`,
`face->colr`, and the palette/foreground state used by
`tt_face_colr_blend_layer`. -/
structure Face where
  num_glyphs : Nat
  num_palette_entries : Nat
  colr : Option Colr
  have_foreground_color : Bool := false
  foreground_color : FT_Color := ⟨0, 0, 0, 0⟩
  palette_flags : Option (Nat → Nat) := none
  palette_index : Nat := 0
  palette : Nat → FT_Color := fun _ => ⟨0, 0, 0, 0⟩

/-- `FT_LayerIterator`: `p = none` models the NULL pointer before the first
call; otherwise `p` is a table-relative byte position. -/
structure FT_LayerIterator where
  num_layers : Nat
  layer : Nat
  p : Option Nat
deriving DecidableEq, Repr

/-- `tt_face_get_colr_layer` (ttcolr.c:242-296).  `none` means the C code
read outside the table buffer; otherwise `some (ret, written, it')` gives
the `FT_Bool` return value, the `(aglyph_index, acolor_index)` outputs when
the call wrote them, and the final iterator state. -/
def tt_face_get_colr_layer (face : Face) (base_glyph : Nat) (it : FT_LayerIterator) :
    Option (Bool × Option (Nat × Nat) × FT_LayerIterator) :=
  match face.colr with
  | none => some (false, none, it)
  | some colr =>
    let step : FT_LayerIterator → Option (Bool × Option (Nat × Nat) × FT_LayerIterator) :=
      fun it =>
        if it.layer ≥ it.num_layers then some (false, none, it)
        else match it.p with
          | none => none
          | some pos =>
            match readU16 colr.data pos, readU16 colr.data (pos + 2) with
            | some aglyph_index, some acolor_index =>
              let it := { it with p := some (pos + LAYER_SIZE) }
              if aglyph_index ≥ face.num_glyphs ∨
                 (acolor_index ≠ 0xFFFF ∧ acolor_index ≥ face.num_palette_entries) then
                some (false, some (aglyph_index, acolor_index), it)
              else
                some (true, some (aglyph_index, acolor_index),
                      { it with layer := it.layer + 1 })
            | _, _ => none
    if it.p = none then
      let it := { it with layer := 0 }
      match find_base_glyph_record colr.data colr.base_glyphs colr.num_base_glyphs
              base_glyph with
      | none => none
      | some none => some (false, none, it)
      | some (some glyph_record) =>
        if glyph_record.num_layers ≠ 0 then
          let it := { it with num_layers := glyph_record.num_layers }
          let offset := LAYER_SIZE * glyph_record.first_layer_index
          if offset + LAYER_SIZE * glyph_record.num_layers > colr.table_size then
            some (false, none, it)
          else
            step { it with p := some (colr.layers + offset) }
        else some (false, none, it)
    else step it

/-- `FT_ColorStopIterator`.  Modelled from the spec: the struct lives in the
repository's `ftcolor.h`, outside `src/`; per the spec it is a "pointer to
the next ColorStop record, current/total stop count".  `p` is a
table-relative position. -/
structure FT_ColorStopIterator where
  num_color_stops : Nat
  current_color_stop : Nat
  p : Nat
deriving DecidableEq, Repr

/-- `FT_ColorStop`.  Modelled from the spec: stop offset plus a Color
(palette index and alpha); the struct itself is in `ftcolor.h`. -/
structure FT_ColorStop where
  stop_offset : Nat
  palette_index : Nat
  alpha : Nat
deriving DecidableEq, Repr

/-- `FT_ColorLine`.  Modelled from the spec: extend mode and a
ColorStopIterator positioned at the first stop (struct in `ftcolor.h`). -/
structure FT_ColorLine where
  extend : Nat
  color_stop_iterator : FT_ColorStopIterator
deriving DecidableEq, Repr

/-- `FT_Matrix`: the 2×2 fixed-point matrix written by `read_affine`. -/
structure FT_Matrix where
  xx : Int
  xy : Int
  yx : Int
  yy : Int
deriving DecidableEq, Repr

/-- Modelled from the spec: numeric paint-format tags come from the
repository's `ftcolor.h` (not under `src/`); the spec's tagged union has the
three variants below with every tag ≥ the maximum rejected. -/
def COLR_PAINTFORMAT_SOLID : Nat := 1

/-- Modelled from the spec: see `COLR_PAINTFORMAT_SOLID`. -/
def COLR_PAINTFORMAT_LINEAR_GRADIENT : Nat := 2

/-- Modelled from the spec: see `COLR_PAINTFORMAT_SOLID`. -/
def COLR_PAINTFORMAT_RADIAL_GRADIENT : Nat := 3

/-- Modelled from the spec: see `COLR_PAINTFORMAT_SOLID`. -/
def COLR_PAINT_FORMAT_MAX : Nat := 4

/-- Modelled from the spec: the extend enum is PAD/REPEAT/REFLECT with
REFLECT the maximum ordinal (value from `ftcolor.h`, not under `src/`). -/
def COLR_PAINT_EXTEND_REFLECT : Nat := 2

/-- `FT_COLR_Paint`.  Modelled from the spec regarding layout: the struct is
in `ftcolor.h`, a tagged union of Solid/LinearGradient/RadialGradient.  Both
gradient union members start with their `colorline` field, so the single
`colorline` field here models the union header that `read_paint` writes
through `u.linear_gradient.colorline` for both gradient variants; the
other variant fields are kept separate. -/
structure FT_COLR_Paint where
  format : Nat
  solid_palette_index : Nat
  solid_alpha : Nat
  colorline : FT_ColorLine
  linear_p0x : Int
  linear_p0y : Int
  linear_p1x : Int
  linear_p1y : Int
  linear_p2x : Int
  linear_p2y : Int
  radial_c0x : Int
  radial_c0y : Int
  radial_r0 : Nat
  radial_c1x : Int
  radial_c1y : Int
  radial_r1 : Nat
  radial_affine : FT_Matrix
deriving DecidableEq, Repr

/-- `read_color_line` (ttcolr.c:298-319).  No bounds check is performed
before the reads (the C code carries a `TODO: Check pointer limits`). -/
def read_color_line (colr : Colr) (paint_base : Nat) (colorline_offset : Nat)
    (colorline : FT_ColorLine) : Option (Bool × FT_ColorLine) :=
  let p := paint_base + colorline_offset
  match readU16 colr.data p with
  | none => none
  | some paint_extend =>
    if paint_extend > COLR_PAINT_EXTEND_REFLECT then some (false, colorline)
    else
      match readU16 colr.data (p + 2) with
      | none => none
      | some n =>
        some (true, { extend := paint_extend,
                      color_stop_iterator := ⟨n, 0, p + 4⟩ })

/-- `read_affine` (ttcolr.c:321-340): four signed 32-bit components, each
followed by a discarded 32-bit variation index; no bounds check (C carries a
`TODO: Check pointer limits against colr->table etc.`). -/
def read_affine (colr : Colr) (paint_base : Nat) (affine_offset : Nat) :
    Option (Bool × FT_Matrix) :=
  let p := paint_base + affine_offset
  match readS32 colr.data p, readU32 colr.data (p + 4),
        readS32 colr.data (p + 8), readU32 colr.data (p + 12),
        readS32 colr.data (p + 16), readU32 colr.data (p + 20),
        readS32 colr.data (p + 24), readU32 colr.data (p + 28) with
  | some xx, some _, some xy, some _, some yx, some _, some yy, some _ =>
    some (true, ⟨xx, xy, yx, yy⟩)
  | _, _, _, _, _, _, _, _ => none

/-- `read_paint` (ttcolr.c:342-438).  Nested offsets are relative to
`paint_base`, the start of the paint record.  Note the C code's radial
branch: when the affine offset is zero it returns success **before** the
(dead, transposed) "unity matrix" assignment, so the caller's affine field
is left untouched. -/
def read_paint (colr : Colr) (layer_v1_array : Nat) (paint_offset : Nat)
    (apaint : FT_COLR_Paint) : Option (Bool × FT_COLR_Paint) :=
  let paint_base := layer_v1_array + paint_offset
  let p := paint_base
  match readU16 colr.data p with
  | none => none
  | some fmt =>
    let apaint := { apaint with format := fmt }
    if fmt ≥ COLR_PAINT_FORMAT_MAX then some (false, apaint)
    else if fmt = COLR_PAINTFORMAT_SOLID then
      match readU16 colr.data (p + 2), readU16 colr.data (p + 4),
            readU32 colr.data (p + 6) with
      | some pal, some alpha, some _ =>
        some (true, { apaint with solid_palette_index := pal, solid_alpha := alpha })
      | _, _, _ => none
    else if fmt = COLR_PAINTFORMAT_LINEAR_GRADIENT then
      match readU32 colr.data (p + 2) with
      | none => none
      | some color_line_offset =>
        match read_color_line colr paint_base color_line_offset apaint.colorline with
        | none => none
        | some (false, cl) => some (false, { apaint with colorline := cl })
        | some (true, cl) =>
          let apaint := { apaint with colorline := cl }
          match readS16 colr.data (p + 6), readU32 colr.data (p + 8),
                readS16 colr.data (p + 12), readU32 colr.data (p + 14),
                readS16 colr.data (p + 18), readU32 colr.data (p + 20),
                readS16 colr.data (p + 24), readU32 colr.data (p + 26),
                readS16 colr.data (p + 30), readU32 colr.data (p + 32),
                readS16 colr.data (p + 36), readU32 colr.data (p + 38) with
          | some p0x, some _, some p0y, some _, some p1x, some _, some p1y, some _,
            some p2x, some _, some p2y, some _ =>
            some (true, { apaint with
              linear_p0x := p0x, linear_p0y := p0y, linear_p1x := p1x,
              linear_p1y := p1y, linear_p2x := p2x, linear_p2y := p2y })
          | _, _, _, _, _, _, _, _, _, _, _, _ => none
    else if fmt = COLR_PAINTFORMAT_RADIAL_GRADIENT then
      match readU32 colr.data (p + 2) with
      | none => none
      | some color_line_offset =>
        match read_color_line colr paint_base color_line_offset apaint.colorline with
        | none => none
        | some (false, cl) => some (false, { apaint with colorline := cl })
        | some (true, cl) =>
          let apaint := { apaint with colorline := cl }
          match readS16 colr.data (p + 6), readU32 colr.data (p + 8),
                readS16 colr.data (p + 12), readU32 colr.data (p + 14),
                readU16 colr.data (p + 18), readU32 colr.data (p + 20),
                readS16 colr.data (p + 24), readU32 colr.data (p + 26),
                readS16 colr.data (p + 30), readU32 colr.data (p + 32),
                readU16 colr.data (p + 36), readU32 colr.data (p + 38),
                readU32 colr.data (p + 42) with
          | some c0x, some _, some c0y, some _, some r0, some _, some c1x, some _,
            some c1y, some _, some r1, some _, some affine_offset =>
            let apaint := { apaint with
              radial_c0x := c0x, radial_c0y := c0y, radial_r0 := r0,
              radial_c1x := c1x, radial_c1y := c1y, radial_r1 := r1 }
            if affine_offset = 0 then some (true, apaint)
            else
              let apaint := { apaint with radial_affine := ⟨1, 0, 1, 0⟩ }
              match read_affine colr paint_base affine_offset with
              | none => none
              | some (_, aff) => some (true, { apaint with radial_affine := aff })
          | _, _, _, _, _, _, _, _, _, _, _, _, _ => none
    else some (true, apaint)

/-- `tt_face_get_colr_layer_gradients` (ttcolr.c:474-539).  The prior value
of the output paint is threaded through `apaint` (the C function writes into
`*paint`); the `Option Nat` in the result is `aglyph_index`, written only on
success. -/
def tt_face_get_colr_layer_gradients (face : Face) (base_glyph : Nat)
    (apaint : FT_COLR_Paint) (it : FT_LayerIterator) :
    Option (Bool × Option Nat × FT_COLR_Paint × FT_LayerIterator) :=
  match face.colr with
  | none => none
  | some colr =>
    if colr.version < 1 ∨ colr.num_base_glyphs_v1 = 0 ∨ colr.base_glyphs_v1 = none then
      some (false, none, apaint, it)
    else
      match colr.base_glyphs_v1 with
      | none => some (false, none, apaint, it)
      | some base_v1 =>
        let step : FT_LayerIterator →
            Option (Bool × Option Nat × FT_COLR_Paint × FT_LayerIterator) :=
          fun it =>
            if it.layer ≥ it.num_layers then some (false, none, apaint, it)
            else match it.p with
              | none => none
              | some pos =>
                let layer_v1_array := pos - it.layer * LAYER_V1_RECORD_SIZE - 4
                match readU16 colr.data pos with
                | none => none
                | some gid =>
                  if gid > face.num_glyphs then some (false, none, apaint, it)
                  else
                    match readU32 colr.data (pos + 2) with
                    | none => none
                    | some paint_offset =>
                      match read_paint colr layer_v1_array paint_offset apaint with
                      | none => none
                      | some (false, apaint') => some (false, none, apaint', it)
                      | some (true, apaint') =>
                        some (true, some gid, apaint',
                              { it with p := some (pos + LAYER_V1_RECORD_SIZE),
                                        layer := it.layer + 1 })
        if it.p = none then
          let it := { it with layer := 0 }
          match find_base_glyph_v1_record colr.data base_v1 colr.num_base_glyphs_v1
                  base_glyph with
          | none => none
          | some none => some (false, none, apaint, it)
          | some (some record) =>
            if record.layer_array_offset = 0 ∨
               record.layer_array_offset > colr.table_size then
              some (false, none, apaint, it)
            else
              match readU32 colr.data (base_v1 + record.layer_array_offset) with
              | none => none
              | some n =>
                let it := { it with num_layers := n }
                if base_v1 + record.layer_array_offset + 4 > colr.table_size then
                  some (false, none, apaint, it)
                else
                  step { it with p := some (base_v1 + record.layer_array_offset + 4) }
        else step it

/-- `tt_face_get_colorline_stops` (ttcolr.c:541-571).  The pre-read bounds
check uses `COLOR_STOP_SIZE = 6` although the subsequent reads consume 14
bytes per stop. -/
def tt_face_get_colorline_stops (face : Face) (it : FT_ColorStopIterator) :
    Option (Bool × Option FT_ColorStop × FT_ColorStopIterator) :=
  if it.current_color_stop ≥ it.num_color_stops then some (false, none, it)
  else
    match face.colr with
    | none => none
    | some colr =>
      if it.p + (it.num_color_stops - it.current_color_stop) * COLOR_STOP_SIZE >
          colr.table_size then
        some (false, none, it)
      else
        match readU16 colr.data it.p, readU32 colr.data (it.p + 2),
              readU16 colr.data (it.p + 6), readU16 colr.data (it.p + 8),
              readU32 colr.data (it.p + 10) with
        | some so, some _, some pal, some alpha, some _ =>
          some (true, some ⟨so, pal, alpha⟩,
                { it with p := it.p + 14,
                          current_color_stop := it.current_color_stop + 1 })
        | _, _, _, _, _ => none

/-- C10: with no CPAL table, `tt_face_load_colr` fails with
`Invalid_File_Format` for every byte buffer, before reading any byte. -/
theorem claim_C10 (data : List Nat) :
    tt_face_load_colr false data = .error .InvalidFileFormat := rfl

/-! Correctness of the two binary searches (C6). -/

theorem find_base_glyph_loop_found (data : List Nat) (base g num : Nat)
    (hb : base + num * BASE_GLYPH_SIZE ≤ data.length)
    (hs : ∀ j, j < num → ∀ i, i < j →
      u16At data (base + i * BASE_GLYPH_SIZE) < u16At data (base + j * BASE_GLYPH_SIZE)) :
    ∀ fuel : Nat, ∀ min max : Int, (max - min + 1).toNat < fuel →
      0 ≤ min → max < (num : Int) →
      ∀ i : Nat, min ≤ (i : Int) → (i : Int) ≤ max →
      u16At data (base + i * BASE_GLYPH_SIZE) = g →
      find_base_glyph_loop data base g fuel min max =
        some (some ⟨g, u16At data (base + i * BASE_GLYPH_SIZE + 2),
                    u16At data (base + i * BASE_GLYPH_SIZE + 4)⟩) := by
  have hbn : base + num * 6 ≤ data.length := by
    simpa [BASE_GLYPH_SIZE] using hb
  intro fuel
  induction fuel with
  | zero => intro min max hf; omega
  | succ fuel ih =>
    intro min max hf hmin hmax i hi1 hi2 hgid
    have hminmax : min ≤ max := le_trans hi1 hi2
    simp only [find_base_glyph_loop, if_pos hminmax]
    obtain ⟨j, hj⟩ : ∃ j : Nat, (j : Int) = min + (max - min) / 2 :=
      ⟨(min + (max - min) / 2).toNat, by omega⟩
    have hjt : (min + (max - min) / 2).toNat = j := by omega
    have hjnum : j < num := by omega
    rw [hjt, readU16_eq_of_le data (base + j * BASE_GLYPH_SIZE)
      (by simp only [BASE_GLYPH_SIZE]; omega)]
    dsimp only
    rcases lt_trichotomy (u16At data (base + j * BASE_GLYPH_SIZE)) g with hlt | heq | hgt
    · rw [if_pos hlt]
      have hji : j < i := by
        rcases Nat.lt_trichotomy i j with h' | h' | h'
        · have hcon := hs j hjnum i h'
          omega
        · subst h'
          omega
        · exact h'
      exact ih (min + (max - min) / 2 + 1) max (by omega) (by omega) hmax i
        (by omega) hi2 hgid
    · rw [if_neg (by omega), if_neg (by omega)]
      have hij : i = j := by
        rcases Nat.lt_trichotomy i j with h' | h' | h'
        · have hcon := hs j hjnum i h'
          omega
        · exact h'
        · have hcon := hs i (by omega) j h'
          omega
      subst hij
      rw [readU16_eq_of_le data (base + i * BASE_GLYPH_SIZE + 2)
        (by simp only [BASE_GLYPH_SIZE]; omega),
        readU16_eq_of_le data (base + i * BASE_GLYPH_SIZE + 4)
        (by simp only [BASE_GLYPH_SIZE]; omega)]
      rw [heq]
    · rw [if_neg (by omega), if_pos (by omega)]
      have hij : i < j := by
        rcases Nat.lt_trichotomy i j with h' | h' | h'
        · exact h'
        · subst h'
          omega
        · have hcon := hs i (by omega) j h'
          omega
      exact ih min (min + (max - min) / 2 - 1) (by omega) hmin (by omega) i hi1
        (by omega) hgid

theorem find_base_glyph_loop_absent (data : List Nat) (base g num : Nat)
    (hb : base + num * BASE_GLYPH_SIZE ≤ data.length)
    (habs : ∀ i, i < num → u16At data (base + i * BASE_GLYPH_SIZE) ≠ g) :
    ∀ fuel : Nat, ∀ min max : Int, 0 ≤ min → max < (num : Int) →
      find_base_glyph_loop data base g fuel min max = some none := by
  have hbn : base + num * 6 ≤ data.length := by
    simpa [BASE_GLYPH_SIZE] using hb
  intro fuel
  induction fuel with
  | zero => intro min max _ _; rfl
  | succ fuel ih =>
    intro min max hmin hmax
    by_cases hminmax : min ≤ max
    · simp only [find_base_glyph_loop, if_pos hminmax]
      obtain ⟨j, hj⟩ : ∃ j : Nat, (j : Int) = min + (max - min) / 2 :=
        ⟨(min + (max - min) / 2).toNat, by omega⟩
      have hjt : (min + (max - min) / 2).toNat = j := by omega
      have hjnum : j < num := by omega
      rw [hjt, readU16_eq_of_le data (base + j * BASE_GLYPH_SIZE)
        (by simp only [BASE_GLYPH_SIZE]; omega)]
      dsimp only
      have hne := habs j hjnum
      rcases Nat.lt_or_ge (u16At data (base + j * BASE_GLYPH_SIZE)) g with hlt | hge
      · rw [if_pos hlt]
        exact ih (min + (max - min) / 2 + 1) max (by omega) hmax
      · rw [if_neg (by omega), if_pos (by omega)]
        exact ih min (min + (max - min) / 2 - 1) hmin (by omega)
    · simp only [find_base_glyph_loop, if_neg hminmax]

theorem find_base_glyph_v1_loop_found (data : List Nat) (base g num : Nat)
    (hb : base + 4 + num * BASE_GLYPH_V1_SIZE ≤ data.length)
    (hs : ∀ j, j < num → ∀ i, i < j →
      u16At data (base + 4 + i * BASE_GLYPH_V1_SIZE) <
        u16At data (base + 4 + j * BASE_GLYPH_V1_SIZE)) :
    ∀ fuel : Nat, ∀ min max : Int, (max - min + 1).toNat < fuel →
      0 ≤ min → max < (num : Int) →
      ∀ i : Nat, min ≤ (i : Int) → (i : Int) ≤ max →
      u16At data (base + 4 + i * BASE_GLYPH_V1_SIZE) = g →
      find_base_glyph_v1_loop data base g fuel min max =
        some (some ⟨g, u32At data (base + 4 + i * BASE_GLYPH_V1_SIZE + 2)⟩) := by
  have hbn : base + 4 + num * 6 ≤ data.length := by
    simpa [BASE_GLYPH_V1_SIZE] using hb
  intro fuel
  induction fuel with
  | zero => intro min max hf; omega
  | succ fuel ih =>
    intro min max hf hmin hmax i hi1 hi2 hgid
    have hminmax : min ≤ max := le_trans hi1 hi2
    simp only [find_base_glyph_v1_loop, if_pos hminmax]
    obtain ⟨j, hj⟩ : ∃ j : Nat, (j : Int) = min + (max - min) / 2 :=
      ⟨(min + (max - min) / 2).toNat, by omega⟩
    have hjt : (min + (max - min) / 2).toNat = j := by omega
    have hjnum : j < num := by omega
    rw [hjt, readU16_eq_of_le data (base + 4 + j * BASE_GLYPH_V1_SIZE)
      (by simp only [BASE_GLYPH_V1_SIZE]; omega)]
    dsimp only
    rcases lt_trichotomy (u16At data (base + 4 + j * BASE_GLYPH_V1_SIZE)) g with
      hlt | heq | hgt
    · rw [if_pos hlt]
      have hji : j < i := by
        rcases Nat.lt_trichotomy i j with h' | h' | h'
        · have hcon := hs j hjnum i h'
          omega
        · subst h'
          omega
        · exact h'
      exact ih (min + (max - min) / 2 + 1) max (by omega) (by omega) hmax i
        (by omega) hi2 hgid
    · rw [if_neg (by omega), if_neg (by omega)]
      have hij : i = j := by
        rcases Nat.lt_trichotomy i j with h' | h' | h'
        · have hcon := hs j hjnum i h'
          omega
        · exact h'
        · have hcon := hs i (by omega) j h'
          omega
      subst hij
      rw [readU32_eq_of_le data (base + 4 + i * BASE_GLYPH_V1_SIZE + 2)
        (by simp only [BASE_GLYPH_V1_SIZE]; omega)]
      rw [heq]
    · rw [if_neg (by omega), if_pos (by omega)]
      have hij : i < j := by
        rcases Nat.lt_trichotomy i j with h' | h' | h'
        · exact h'
        · subst h'
          omega
        · have hcon := hs i (by omega) j h'
          omega
      exact ih min (min + (max - min) / 2 - 1) (by omega) hmin (by omega) i hi1
        (by omega) hgid

theorem find_base_glyph_v1_loop_absent (data : List Nat) (base g num : Nat)
    (hb : base + 4 + num * BASE_GLYPH_V1_SIZE ≤ data.length)
    (habs : ∀ i, i < num → u16At data (base + 4 + i * BASE_GLYPH_V1_SIZE) ≠ g) :
    ∀ fuel : Nat, ∀ min max : Int, 0 ≤ min → max < (num : Int) →
      find_base_glyph_v1_loop data base g fuel min max = some none := by
  have hbn : base + 4 + num * 6 ≤ data.length := by
    simpa [BASE_GLYPH_V1_SIZE] using hb
  intro fuel
  induction fuel with
  | zero => intro min max _ _; rfl
  | succ fuel ih =>
    intro min max hmin hmax
    by_cases hminmax : min ≤ max
    · simp only [find_base_glyph_v1_loop, if_pos hminmax]
      obtain ⟨j, hj⟩ : ∃ j : Nat, (j : Int) = min + (max - min) / 2 :=
        ⟨(min + (max - min) / 2).toNat, by omega⟩
      have hjt : (min + (max - min) / 2).toNat = j := by omega
      have hjnum : j < num := by omega
      rw [hjt, readU16_eq_of_le data (base + 4 + j * BASE_GLYPH_V1_SIZE)
        (by simp only [BASE_GLYPH_V1_SIZE]; omega)]
      dsimp only
      have hne := habs j hjnum
      rcases Nat.lt_or_ge (u16At data (base + 4 + j * BASE_GLYPH_V1_SIZE)) g with hlt | hge
      · rw [if_pos hlt]
        exact ih (min + (max - min) / 2 + 1) max (by omega) hmax
      · rw [if_neg (by omega), if_pos (by omega)]
        exact ih min (min + (max - min) / 2 - 1) hmin (by omega)
    · simp only [find_base_glyph_v1_loop, if_neg hminmax]

/-- C6: over any duplicate-free ascending record array (size 0, 1 or N),
both binary searches return the exact record whose 16-bit glyph id matches
the query, and not-found when the id is absent. -/
theorem claim_C6 :
    (∀ (data : List Nat) (base num g : Nat),
      base + num * BASE_GLYPH_SIZE ≤ data.length →
      (∀ j, j < num → ∀ i, i < j →
        u16At data (base + i * BASE_GLYPH_SIZE) <
          u16At data (base + j * BASE_GLYPH_SIZE)) →
      (∀ i, i < num → u16At data (base + i * BASE_GLYPH_SIZE) = g →
        find_base_glyph_record data base num g =
          some (some ⟨g, u16At data (base + i * BASE_GLYPH_SIZE + 2),
                      u16At data (base + i * BASE_GLYPH_SIZE + 4)⟩)) ∧
      ((∀ i, i < num → u16At data (base + i * BASE_GLYPH_SIZE) ≠ g) →
        find_base_glyph_record data base num g = some none)) ∧
    (∀ (data : List Nat) (base num g : Nat),
      base + 4 + num * BASE_GLYPH_V1_SIZE ≤ data.length →
      (∀ j, j < num → ∀ i, i < j →
        u16At data (base + 4 + i * BASE_GLYPH_V1_SIZE) <
          u16At data (base + 4 + j * BASE_GLYPH_V1_SIZE)) →
      (∀ i, i < num → u16At data (base + 4 + i * BASE_GLYPH_V1_SIZE) = g →
        find_base_glyph_v1_record data base num g =
          some (some ⟨g, u32At data (base + 4 + i * BASE_GLYPH_V1_SIZE + 2)⟩)) ∧
      ((∀ i, i < num → u16At data (base + 4 + i * BASE_GLYPH_V1_SIZE) ≠ g) →
        find_base_glyph_v1_record data base num g = some none)) := by
  constructor
  · intro data base num g hb hs
    constructor
    · intro i hi hgid
      exact find_base_glyph_loop_found data base g num hb hs (num + 1) 0 (num - 1)
        (by omega) (by omega) (by omega) i (by omega) (by omega) hgid
    · intro habs
      exact find_base_glyph_loop_absent data base g num hb habs (num + 1) 0 (num - 1)
        (by omega) (by omega)
  · intro data base num g hb hs
    constructor
    · intro i hi hgid
      exact find_base_glyph_v1_loop_found data base g num hb hs (num + 1) 0 (num - 1)
        (by omega) (by omega) (by omega) i (by omega) (by omega) hgid
    · intro habs
      exact find_base_glyph_v1_loop_absent data base g num hb habs (num + 1) 0 (num - 1)
        (by omega) (by omega)

/-- Concrete instantiation of C6 on a three-record array with gids 2, 5, 9:
the present id 5 is found with its record fields, and the absent id 4 is
reported not-found. -/
theorem claim_C6_witness :
    find_base_glyph_record ([0,2, 0,10, 0,1, 0,5, 0,20, 0,2, 0,9, 0,30, 0,3]) 0 3 5 =
      some (some ⟨5, 20, 2⟩) ∧
    find_base_glyph_record ([0,2, 0,10, 0,1, 0,5, 0,20, 0,2, 0,9, 0,30, 0,3]) 0 3 4 =
      some none := by
  constructor
  · have h := ((claim_C6.1 ([0,2, 0,10, 0,1, 0,5, 0,20, 0,2, 0,9, 0,30, 0,3]) 0 3 5
      (by decide) (by decide)).1 1 (by decide) (by decide))
    simpa using h
  · exact (claim_C6.1 ([0,2, 0,10, 0,1, 0,5, 0,20, 0,2, 0,9, 0,30, 0,3]) 0 3 4
      (by decide) (by decide)).2 (by decide)

/-! Behaviour of one `tt_face_get_colr_layer` call (helpers for C4, C5, C7). -/

/-- A non-first call whose record passes validation returns the record and
advances both the record pointer and the layer counter. -/
theorem v0_call_ok (face : Face) (colr : Colr) (g : Nat) (it : FT_LayerIterator)
    (pos gi ci : Nat)
    (hcolr : face.colr = some colr)
    (hp : it.p = some pos)
    (hlay : it.layer < it.num_layers)
    (hr1 : readU16 colr.data pos = some gi)
    (hr2 : readU16 colr.data (pos + 2) = some ci)
    (hok : gi < face.num_glyphs ∧ (ci = 0xFFFF ∨ ci < face.num_palette_entries)) :
    tt_face_get_colr_layer face g it =
      some (true, some (gi, ci),
        ⟨it.num_layers, it.layer + 1, some (pos + LAYER_SIZE)⟩) := by
  have h1 := hok.1
  have h2 := hok.2
  simp only [tt_face_get_colr_layer, hcolr]
  rw [if_neg (by simp [hp])]
  rw [if_neg (by omega), hp]
  dsimp only
  rw [hr1, hr2]
  dsimp only
  rw [if_neg (by omega)]

/-- A non-first call whose record fails validation returns failure, advances
the record pointer, and leaves the layer counter unchanged. -/
theorem v0_call_reject (face : Face) (colr : Colr) (g : Nat) (it : FT_LayerIterator)
    (pos gi ci : Nat)
    (hcolr : face.colr = some colr)
    (hp : it.p = some pos)
    (hlay : it.layer < it.num_layers)
    (hr1 : readU16 colr.data pos = some gi)
    (hr2 : readU16 colr.data (pos + 2) = some ci)
    (hbad : gi ≥ face.num_glyphs ∨ (ci ≠ 0xFFFF ∧ ci ≥ face.num_palette_entries)) :
    tt_face_get_colr_layer face g it =
      some (false, some (gi, ci),
        ⟨it.num_layers, it.layer, some (pos + LAYER_SIZE)⟩) := by
  simp only [tt_face_get_colr_layer, hcolr]
  rw [if_neg (by simp [hp])]
  rw [if_neg (by omega), hp]
  dsimp only
  rw [hr1, hr2]
  dsimp only
  rw [if_pos (by omega)]

/-- A non-first call whose layer counter has reached the layer count returns
end-of-iteration and leaves the cursor unchanged. -/
theorem v0_call_end (face : Face) (colr : Colr) (g : Nat) (it : FT_LayerIterator)
    (pos : Nat)
    (hcolr : face.colr = some colr)
    (hp : it.p = some pos)
    (hlay : it.num_layers ≤ it.layer) :
    tt_face_get_colr_layer face g it = some (false, none, it) := by
  simp only [tt_face_get_colr_layer, hcolr]
  rw [if_neg (by simp [hp])]
  rw [if_pos (by omega)]

/-- A first call (NULL cursor) on a base glyph found with a nonzero,
in-bounds layer range behaves exactly like a call on the initialised
cursor. -/
theorem v0_first_call_eq (face : Face) (colr : Colr) (g g' first k : Nat)
    (it0 : FT_LayerIterator)
    (hcolr : face.colr = some colr)
    (hp : it0.p = none)
    (hfind : find_base_glyph_record colr.data colr.base_glyphs colr.num_base_glyphs g =
      some (some ⟨g', first, k⟩))
    (hk : k ≠ 0)
    (hbound : ¬ LAYER_SIZE * first + LAYER_SIZE * k > colr.table_size) :
    tt_face_get_colr_layer face g it0 =
      tt_face_get_colr_layer face g ⟨k, 0, some (colr.layers + LAYER_SIZE * first)⟩ := by
  conv_lhs => rw [tt_face_get_colr_layer]
  conv_rhs => rw [tt_face_get_colr_layer]
  simp only [hcolr]
  rw [if_pos (by simp [hp]), if_neg (by simp)]
  rw [hfind]
  dsimp only
  rw [if_pos hk, if_neg hbound]

/-- A first call on a base glyph found with zero layers yields nothing and
only resets the layer counter. -/
theorem v0_first_call_zero (face : Face) (colr : Colr) (g g' first : Nat)
    (it0 : FT_LayerIterator)
    (hcolr : face.colr = some colr)
    (hp : it0.p = none)
    (hfind : find_base_glyph_record colr.data colr.base_glyphs colr.num_base_glyphs g =
      some (some ⟨g', first, 0⟩)) :
    tt_face_get_colr_layer face g it0 =
      some (false, none, { it0 with layer := 0 }) := by
  simp only [tt_face_get_colr_layer, hcolr]
  rw [if_pos (by simp [hp])]
  rw [hfind]
  dsimp only
  rw [if_neg (by simp)]

/-- C7: for a base glyph present in the v0 index with `k` layer records that
all pass the per-layer validation and whose range fits in the table,
iteration on a fresh cursor yields exactly the `k` (glyph id, color index)
pairs in on-disk order, and every call after the `k`-th (and every call when
`k = 0`) yields end-of-iteration. -/
theorem claim_C7 (face : Face) (colr : Colr) (g first k : Nat)
    (gid col : Nat → Nat)
    (hcolr : face.colr = some colr)
    (hfind : find_base_glyph_record colr.data colr.base_glyphs colr.num_base_glyphs g =
      some (some ⟨g, first, k⟩))
    (hbound : LAYER_SIZE * first + LAYER_SIZE * k ≤ colr.table_size)
    (hread : ∀ i, i < k →
      readU16 colr.data (colr.layers + LAYER_SIZE * first + LAYER_SIZE * i) =
        some (gid i) ∧
      readU16 colr.data (colr.layers + LAYER_SIZE * first + LAYER_SIZE * i + 2) =
        some (col i))
    (hvalid : ∀ i, i < k → gid i < face.num_glyphs ∧
      (col i = 0xFFFF ∨ col i < face.num_palette_entries)) :
    (∀ i, i < k →
      tt_face_get_colr_layer face g
          ⟨k, i, some (colr.layers + LAYER_SIZE * first + LAYER_SIZE * i)⟩ =
        some (true, some (gid i, col i),
          ⟨k, i + 1, some (colr.layers + LAYER_SIZE * first + LAYER_SIZE * (i + 1))⟩)) ∧
    (∀ it0 : FT_LayerIterator, it0.p = none → 0 < k →
      tt_face_get_colr_layer face g it0 =
        some (true, some (gid 0, col 0),
          ⟨k, 1, some (colr.layers + LAYER_SIZE * first + LAYER_SIZE * 1)⟩)) ∧
    (∀ p', tt_face_get_colr_layer face g ⟨k, k, some p'⟩ =
      some (false, none, ⟨k, k, some p'⟩)) ∧
    (k = 0 → ∀ it0 : FT_LayerIterator, it0.p = none →
      tt_face_get_colr_layer face g it0 =
        some (false, none, { it0 with layer := 0 })) := by
  have hstep : ∀ i, i < k →
      tt_face_get_colr_layer face g
          ⟨k, i, some (colr.layers + LAYER_SIZE * first + LAYER_SIZE * i)⟩ =
        some (true, some (gid i, col i),
          ⟨k, i + 1, some (colr.layers + LAYER_SIZE * first + LAYER_SIZE * (i + 1))⟩) := by
    intro i hi
    have h := v0_call_ok face colr g
      ⟨k, i, some (colr.layers + LAYER_SIZE * first + LAYER_SIZE * i)⟩
      (colr.layers + LAYER_SIZE * first + LAYER_SIZE * i) (gid i) (col i)
      hcolr rfl hi (hread i hi).1 (hread i hi).2 (hvalid i hi)
    simpa [LAYER_SIZE, Nat.mul_add, Nat.add_assoc] using h
  refine ⟨hstep, ?_, ?_, ?_⟩
  · intro it0 hp hk
    rw [v0_first_call_eq face colr g g first k it0 hcolr hp hfind (by omega)
      (by simp only [LAYER_SIZE] at hbound ⊢; omega)]
    have h := hstep 0 hk
    simpa using h
  · intro p'
    exact v0_call_end face colr g ⟨k, k, some p'⟩ p' hcolr rfl (Nat.le_refl k)
  · intro hk it0 hp
    subst hk
    exact v0_first_call_zero face colr g g first it0 hcolr hp hfind

/-- Failure paths of the color-stop iterator leave the cursor unchanged, so
the same failure repeats on every subsequent call. -/
theorem stops_fail_latch (face : Face) (it it' : FT_ColorStopIterator)
    (cs : Option FT_ColorStop)
    (h : tt_face_get_colorline_stops face it = some (false, cs, it')) :
    cs = none ∧ it' = it ∧
    tt_face_get_colorline_stops face it' = some (false, none, it') := by
  have hmain : cs = none ∧ it' = it := by
    unfold tt_face_get_colorline_stops at h
    repeat' split at h
    all_goals simp_all
  obtain ⟨hcs, hit⟩ := hmain
  subst hcs
  subst hit
  exact ⟨rfl, rfl, h⟩

/-- An initialised v1 iterator call whose layer record carries
`gid > num_glyphs` fails and leaves cursor and paint unchanged. -/
theorem v1_call_reject (face : Face) (colr : Colr) (base_v1 g : Nat)
    (apaint : FT_COLR_Paint) (it : FT_LayerIterator) (pos gi : Nat)
    (hcolr : face.colr = some colr)
    (hver : 1 ≤ colr.version)
    (hnum : colr.num_base_glyphs_v1 ≠ 0)
    (hbv1 : colr.base_glyphs_v1 = some base_v1)
    (hp : it.p = some pos)
    (hlay : it.layer < it.num_layers)
    (hr : readU16 colr.data pos = some gi)
    (hbad : gi > face.num_glyphs) :
    tt_face_get_colr_layer_gradients face g apaint it =
      some (false, none, apaint, it) := by
  simp only [tt_face_get_colr_layer_gradients, hcolr]
  rw [if_neg (by simp [hbv1]; omega), hbv1]
  dsimp only
  rw [if_neg (by simp [hp])]
  rw [if_neg (by omega), hp]
  dsimp only
  rw [hr]
  dsimp only
  rw [if_pos hbad]

/-- A successful v0 iterator call implies the decoded gid was strictly below
the glyph count and the color index was the sentinel or in palette range. -/
theorem v0_success_inv (face : Face) (g : Nat) (it it' : FT_LayerIterator)
    (gi ci : Nat)
    (h : tt_face_get_colr_layer face g it = some (true, some (gi, ci), it')) :
    gi < face.num_glyphs ∧ (ci = 0xFFFF ∨ ci < face.num_palette_entries) := by
  unfold tt_face_get_colr_layer at h
  repeat' split at h
  all_goals try simp_all
  all_goals try (repeat' split at h)
  all_goals try simp_all
  all_goals omega

/-- A successful v1 iterator call implies the decoded gid was at most the
glyph count (`gid = num_glyphs` is accepted). -/
theorem v1_success_inv (face : Face) (g : Nat) (apaint apaint' : FT_COLR_Paint)
    (it it' : FT_LayerIterator) (gi : Nat)
    (h : tt_face_get_colr_layer_gradients face g apaint it =
      some (true, some gi, apaint', it')) :
    gi ≤ face.num_glyphs := by
  unfold tt_face_get_colr_layer_gradients at h
  repeat' split at h
  all_goals try simp_all
  all_goals try (repeat' split at h)
  all_goals try simp_all
  all_goals omega

/-- A failing v1 iterator call whose cursor was already initialised leaves
the cursor unchanged. -/
theorem v1_nonfirst_fail_state (face : Face) (g : Nat) (ap : FT_COLR_Paint)
    (it it' : FT_LayerIterator) (o : Option Nat) (ap' : FT_COLR_Paint)
    (hp : it.p ≠ none)
    (h : tt_face_get_colr_layer_gradients face g ap it = some (false, o, ap', it')) :
    it' = it := by
  unfold tt_face_get_colr_layer_gradients at h
  repeat' split at h
  all_goals try simp_all
  all_goals try (repeat' split at h)
  all_goals simp_all

/-- Evaluation: the version/count/NULL guard makes the call fail with
everything unchanged. -/
theorem v1_guard_fail (face : Face) (colr : Colr) (g : Nat) (ap : FT_COLR_Paint)
    (it : FT_LayerIterator)
    (hcolr : face.colr = some colr)
    (hg : colr.version < 1 ∨ colr.num_base_glyphs_v1 = 0 ∨ colr.base_glyphs_v1 = none) :
    tt_face_get_colr_layer_gradients face g ap it = some (false, none, ap, it) := by
  simp only [tt_face_get_colr_layer_gradients, hcolr]
  rw [if_pos hg]

/-- Evaluation: a first call whose glyph-index lookup reads out of bounds
propagates the out-of-bounds marker. -/
theorem v1_first_find_none (face : Face) (colr : Colr) (bv1 g : Nat)
    (ap : FT_COLR_Paint) (it : FT_LayerIterator)
    (hcolr : face.colr = some colr)
    (hver : 1 ≤ colr.version) (hnum : colr.num_base_glyphs_v1 ≠ 0)
    (hbv : colr.base_glyphs_v1 = some bv1)
    (hp : it.p = none)
    (hfind : find_base_glyph_v1_record colr.data bv1 colr.num_base_glyphs_v1 g = none) :
    tt_face_get_colr_layer_gradients face g ap it = none := by
  simp only [tt_face_get_colr_layer_gradients, hcolr]
  rw [if_neg (by simp [hbv]; omega), hbv]
  dsimp only
  rw [if_pos (by simp [hp]), hfind]

/-- Evaluation: a first call whose base glyph is not in the v1 index fails,
resetting only the layer counter. -/
theorem v1_first_find_miss (face : Face) (colr : Colr) (bv1 g : Nat)
    (ap : FT_COLR_Paint) (it : FT_LayerIterator)
    (hcolr : face.colr = some colr)
    (hver : 1 ≤ colr.version) (hnum : colr.num_base_glyphs_v1 ≠ 0)
    (hbv : colr.base_glyphs_v1 = some bv1)
    (hp : it.p = none)
    (hfind : find_base_glyph_v1_record colr.data bv1 colr.num_base_glyphs_v1 g =
      some none) :
    tt_face_get_colr_layer_gradients face g ap it =
      some (false, none, ap, ⟨it.num_layers, 0, none⟩) := by
  obtain ⟨itn, itl, itp⟩ := it
  have hp' : itp = none := hp
  subst hp'
  simp only [tt_face_get_colr_layer_gradients, hcolr]
  rw [if_neg (by simp [hbv]; omega), hbv]
  dsimp only
  rw [if_pos (by simp [hp]), hfind]

/-- Evaluation: a zero or out-of-range layer-array offset fails the first
call, resetting only the layer counter. -/
theorem v1_first_lao_bad (face : Face) (colr : Colr) (bv1 g : Nat)
    (ap : FT_COLR_Paint) (it : FT_LayerIterator) (record : BaseGlyphV1Record)
    (hcolr : face.colr = some colr)
    (hver : 1 ≤ colr.version) (hnum : colr.num_base_glyphs_v1 ≠ 0)
    (hbv : colr.base_glyphs_v1 = some bv1)
    (hp : it.p = none)
    (hfind : find_base_glyph_v1_record colr.data bv1 colr.num_base_glyphs_v1 g =
      some (some record))
    (hlao : record.layer_array_offset = 0 ∨
      record.layer_array_offset > colr.table_size) :
    tt_face_get_colr_layer_gradients face g ap it =
      some (false, none, ap, ⟨it.num_layers, 0, none⟩) := by
  obtain ⟨itn, itl, itp⟩ := it
  have hp' : itp = none := hp
  subst hp'
  simp only [tt_face_get_colr_layer_gradients, hcolr]
  rw [if_neg (by simp [hbv]; omega), hbv]
  dsimp only
  rw [if_pos (by simp [hp]), hfind]
  dsimp only
  rw [if_pos hlao]

/-- Evaluation: an out-of-bounds layer-count read on the first call
propagates the out-of-bounds marker. -/
theorem v1_first_n_none (face : Face) (colr : Colr) (bv1 g : Nat)
    (ap : FT_COLR_Paint) (it : FT_LayerIterator) (record : BaseGlyphV1Record)
    (hcolr : face.colr = some colr)
    (hver : 1 ≤ colr.version) (hnum : colr.num_base_glyphs_v1 ≠ 0)
    (hbv : colr.base_glyphs_v1 = some bv1)
    (hp : it.p = none)
    (hfind : find_base_glyph_v1_record colr.data bv1 colr.num_base_glyphs_v1 g =
      some (some record))
    (hlao : ¬ (record.layer_array_offset = 0 ∨
      record.layer_array_offset > colr.table_size))
    (hn : readU32 colr.data (bv1 + record.layer_array_offset) = none) :
    tt_face_get_colr_layer_gradients face g ap it = none := by
  simp only [tt_face_get_colr_layer_gradients, hcolr]
  rw [if_neg (by simp [hbv]; omega), hbv]
  dsimp only
  rw [if_pos (by simp [hp]), hfind]
  dsimp only
  rw [if_neg hlao, hn]

/-- Evaluation: a first call whose cursor-end check fails (the position
after the 4-byte layer count lies past the table end) fails with the layer
count already stored. -/
theorem v1_first_chk_bad (face : Face) (colr : Colr) (bv1 g n : Nat)
    (ap : FT_COLR_Paint) (it : FT_LayerIterator) (record : BaseGlyphV1Record)
    (hcolr : face.colr = some colr)
    (hver : 1 ≤ colr.version) (hnum : colr.num_base_glyphs_v1 ≠ 0)
    (hbv : colr.base_glyphs_v1 = some bv1)
    (hp : it.p = none)
    (hfind : find_base_glyph_v1_record colr.data bv1 colr.num_base_glyphs_v1 g =
      some (some record))
    (hlao : ¬ (record.layer_array_offset = 0 ∨
      record.layer_array_offset > colr.table_size))
    (hn : readU32 colr.data (bv1 + record.layer_array_offset) = some n)
    (hchk : bv1 + record.layer_array_offset + 4 > colr.table_size) :
    tt_face_get_colr_layer_gradients face g ap it =
      some (false, none, ap, ⟨n, 0, none⟩) := by
  obtain ⟨itn, itl, itp⟩ := it
  have hp' : itp = none := hp
  subst hp'
  simp only [tt_face_get_colr_layer_gradients, hcolr]
  rw [if_neg (by simp [hbv]; omega), hbv]
  dsimp only
  rw [if_pos (by simp [hp]), hfind]
  dsimp only
  rw [if_neg hlao, hn]
  dsimp only
  rw [if_pos hchk]

/-- Evaluation: a first call that passes all cursor-initialisation checks
behaves exactly like a call on the initialised cursor. -/
theorem v1_first_transfer (face : Face) (colr : Colr) (bv1 g n : Nat)
    (ap : FT_COLR_Paint) (it : FT_LayerIterator) (record : BaseGlyphV1Record)
    (hcolr : face.colr = some colr)
    (hver : 1 ≤ colr.version) (hnum : colr.num_base_glyphs_v1 ≠ 0)
    (hbv : colr.base_glyphs_v1 = some bv1)
    (hp : it.p = none)
    (hfind : find_base_glyph_v1_record colr.data bv1 colr.num_base_glyphs_v1 g =
      some (some record))
    (hlao : ¬ (record.layer_array_offset = 0 ∨
      record.layer_array_offset > colr.table_size))
    (hn : readU32 colr.data (bv1 + record.layer_array_offset) = some n)
    (hchk : ¬ bv1 + record.layer_array_offset + 4 > colr.table_size) :
    tt_face_get_colr_layer_gradients face g ap it =
      tt_face_get_colr_layer_gradients face g ap
        ⟨n, 0, some (bv1 + record.layer_array_offset + 4)⟩ := by
  have hgneg : ¬ (colr.version < 1 ∨ colr.num_base_glyphs_v1 = 0 ∨
      colr.base_glyphs_v1 = none) := by
    push_neg
    exact ⟨by omega, hnum, by simp [hbv]⟩
  conv_lhs => rw [tt_face_get_colr_layer_gradients]
  conv_rhs => rw [tt_face_get_colr_layer_gradients]
  simp only [hcolr]
  rw [if_neg hgneg, if_neg hgneg, hbv]
  dsimp only
  rw [if_pos (by simp [hp]), if_neg (by simp), hfind]
  dsimp only
  rw [if_neg hlao, hn]
  dsimp only
  rw [if_neg hchk]

/-- Evaluation: a call on an exhausted initialised cursor fails with
everything unchanged. -/
theorem v1_call_end (face : Face) (colr : Colr) (g : Nat) (ap : FT_COLR_Paint)
    (it : FT_LayerIterator) (pos : Nat)
    (hcolr : face.colr = some colr)
    (hver : 1 ≤ colr.version) (hnum : colr.num_base_glyphs_v1 ≠ 0)
    (hbv1 : ∃ bv1, colr.base_glyphs_v1 = some bv1)
    (hp : it.p = some pos)
    (hlay : it.num_layers ≤ it.layer) :
    tt_face_get_colr_layer_gradients face g ap it = some (false, none, ap, it) := by
  obtain ⟨bv1, hbv⟩ := hbv1
  simp only [tt_face_get_colr_layer_gradients, hcolr]
  rw [if_neg (by simp [hbv]; omega), hbv]
  dsimp only
  rw [if_neg (by simp [hp])]
  rw [if_pos (by omega)]

/-- Evaluation: an out-of-bounds layer-record gid read propagates the
out-of-bounds marker. -/
theorem v1_call_gid_none (face : Face) (colr : Colr) (g : Nat) (ap : FT_COLR_Paint)
    (it : FT_LayerIterator) (pos : Nat)
    (hcolr : face.colr = some colr)
    (hver : 1 ≤ colr.version) (hnum : colr.num_base_glyphs_v1 ≠ 0)
    (hbv1 : ∃ bv1, colr.base_glyphs_v1 = some bv1)
    (hp : it.p = some pos)
    (hlay : it.layer < it.num_layers)
    (hgid : readU16 colr.data pos = none) :
    tt_face_get_colr_layer_gradients face g ap it = none := by
  obtain ⟨bv1, hbv⟩ := hbv1
  simp only [tt_face_get_colr_layer_gradients, hcolr]
  rw [if_neg (by simp [hbv]; omega), hbv]
  dsimp only
  rw [if_neg (by simp [hp])]
  rw [if_neg (by omega), hp]
  dsimp only
  rw [hgid]

/-- Evaluation: an out-of-bounds paint-offset read propagates the
out-of-bounds marker. -/
theorem v1_call_po_none (face : Face) (colr : Colr) (g : Nat) (ap : FT_COLR_Paint)
    (it : FT_LayerIterator) (pos gi : Nat)
    (hcolr : face.colr = some colr)
    (hver : 1 ≤ colr.version) (hnum : colr.num_base_glyphs_v1 ≠ 0)
    (hbv1 : ∃ bv1, colr.base_glyphs_v1 = some bv1)
    (hp : it.p = some pos)
    (hlay : it.layer < it.num_layers)
    (hgid : readU16 colr.data pos = some gi)
    (hok : ¬ gi > face.num_glyphs)
    (hpo : readU32 colr.data (pos + 2) = none) :
    tt_face_get_colr_layer_gradients face g ap it = none := by
  obtain ⟨bv1, hbv⟩ := hbv1
  simp only [tt_face_get_colr_layer_gradients, hcolr]
  rw [if_neg (by simp [hbv]; omega), hbv]
  dsimp only
  rw [if_neg (by simp [hp])]
  rw [if_neg (by omega), hp]
  dsimp only
  rw [hgid]
  dsimp only
  rw [if_neg hok, hpo]

/-- Evaluation: the paint decoder's out-of-bounds marker propagates. -/
theorem v1_call_rp_none (face : Face) (colr : Colr) (g : Nat) (ap : FT_COLR_Paint)
    (it : FT_LayerIterator) (pos gi po : Nat)
    (hcolr : face.colr = some colr)
    (hver : 1 ≤ colr.version) (hnum : colr.num_base_glyphs_v1 ≠ 0)
    (hbv1 : ∃ bv1, colr.base_glyphs_v1 = some bv1)
    (hp : it.p = some pos)
    (hlay : it.layer < it.num_layers)
    (hgid : readU16 colr.data pos = some gi)
    (hok : ¬ gi > face.num_glyphs)
    (hpo : readU32 colr.data (pos + 2) = some po)
    (hrp : read_paint colr (pos - it.layer * LAYER_V1_RECORD_SIZE - 4) po ap = none) :
    tt_face_get_colr_layer_gradients face g ap it = none := by
  obtain ⟨bv1, hbv⟩ := hbv1
  simp only [tt_face_get_colr_layer_gradients, hcolr]
  rw [if_neg (by simp [hbv]; omega), hbv]
  dsimp only
  rw [if_neg (by simp [hp])]
  rw [if_neg (by omega), hp]
  dsimp only
  rw [hgid]
  dsimp only
  rw [if_neg hok, hpo]
  dsimp only
  rw [hrp]

/-- Evaluation: a paint-decoder failure fails the call, leaving the cursor
unchanged (only the caller's paint struct holds the partial decode). -/
theorem v1_call_paint_fail (face : Face) (colr : Colr) (g : Nat)
    (ap ap2 : FT_COLR_Paint) (it : FT_LayerIterator) (pos gi po : Nat)
    (hcolr : face.colr = some colr)
    (hver : 1 ≤ colr.version) (hnum : colr.num_base_glyphs_v1 ≠ 0)
    (hbv1 : ∃ bv1, colr.base_glyphs_v1 = some bv1)
    (hp : it.p = some pos)
    (hlay : it.layer < it.num_layers)
    (hgid : readU16 colr.data pos = some gi)
    (hok : ¬ gi > face.num_glyphs)
    (hpo : readU32 colr.data (pos + 2) = some po)
    (hrp : read_paint colr (pos - it.layer * LAYER_V1_RECORD_SIZE - 4) po ap =
      some (false, ap2)) :
    tt_face_get_colr_layer_gradients face g ap it = some (false, none, ap2, it) := by
  obtain ⟨bv1, hbv⟩ := hbv1
  simp only [tt_face_get_colr_layer_gradients, hcolr]
  rw [if_neg (by simp [hbv]; omega), hbv]
  dsimp only
  rw [if_neg (by simp [hp])]
  rw [if_neg (by omega), hp]
  dsimp only
  rw [hgid]
  dsimp only
  rw [if_neg hok, hpo]
  dsimp only
  rw [hrp]

/-- Evaluation: a fully successful call yields the gid and decoded paint and
advances the cursor by one layer record. -/
theorem v1_call_success (face : Face) (colr : Colr) (g : Nat)
    (ap ap2 : FT_COLR_Paint) (it : FT_LayerIterator) (pos gi po : Nat)
    (hcolr : face.colr = some colr)
    (hver : 1 ≤ colr.version) (hnum : colr.num_base_glyphs_v1 ≠ 0)
    (hbv1 : ∃ bv1, colr.base_glyphs_v1 = some bv1)
    (hp : it.p = some pos)
    (hlay : it.layer < it.num_layers)
    (hgid : readU16 colr.data pos = some gi)
    (hok : ¬ gi > face.num_glyphs)
    (hpo : readU32 colr.data (pos + 2) = some po)
    (hrp : read_paint colr (pos - it.layer * LAYER_V1_RECORD_SIZE - 4) po ap =
      some (true, ap2)) :
    tt_face_get_colr_layer_gradients face g ap it =
      some (true, some gi, ap2,
        ⟨it.num_layers, it.layer + 1, some (pos + LAYER_V1_RECORD_SIZE)⟩) := by
  obtain ⟨bv1, hbv⟩ := hbv1
  simp only [tt_face_get_colr_layer_gradients, hcolr]
  rw [if_neg (by simp [hbv]; omega), hbv]
  dsimp only
  rw [if_neg (by simp [hp])]
  rw [if_neg (by omega), hp]
  dsimp only
  rw [hgid]
  dsimp only
  rw [if_neg hok, hpo]
  dsimp only
  rw [hrp]

/-- Any failing v1 iterator call is latched: calling again on the returned
cursor (with the same output-paint struct, which `read_paint` never reads)
reproduces the failure and the same cursor, so the caller keeps receiving
"no more layers". -/
theorem v1_fail_latch (face : Face) (g : Nat) (ap : FT_COLR_Paint)
    (it it' : FT_LayerIterator) (o : Option Nat) (ap' : FT_COLR_Paint)
    (h : tt_face_get_colr_layer_gradients face g ap it = some (false, o, ap', it')) :
    tt_face_get_colr_layer_gradients face g ap it' = some (false, o, ap', it') := by
  by_cases hp0 : it.p = none
  case neg =>
    have hstate := v1_nonfirst_fail_state face g ap it it' o ap' hp0 h
    subst hstate
    exact h
  case pos =>
    rcases hc : face.colr with _ | colr
    · simp only [tt_face_get_colr_layer_gradients, hc] at h
      exact Option.noConfusion h
    · by_cases hg : (colr.version < 1 ∨ colr.num_base_glyphs_v1 = 0 ∨
          colr.base_glyphs_v1 = none)
      · have e1 := v1_guard_fail face colr g ap it hc hg
        rw [e1] at h
        simp only [Option.some.injEq, Prod.mk.injEq] at h
        obtain ⟨-, ho, hap, hit⟩ := h
        subst ho; subst hap; subst hit
        exact v1_guard_fail face colr g ap it hc hg
      · have hg' := hg
        push_neg at hg'
        obtain ⟨hver0, hnum, hbvne⟩ := hg'
        have hver : 1 ≤ colr.version := by omega
        obtain ⟨bv1, hbv⟩ := Option.ne_none_iff_exists'.mp hbvne
        rcases hfind : find_base_glyph_v1_record colr.data bv1
            colr.num_base_glyphs_v1 g with _ | rres
        · rw [v1_first_find_none face colr bv1 g ap it hc hver hnum hbv hp0 hfind] at h
          exact Option.noConfusion h
        · rcases rres with _ | record
          · have e1 := v1_first_find_miss face colr bv1 g ap it hc hver hnum hbv
              hp0 hfind
            rw [e1] at h
            simp only [Option.some.injEq, Prod.mk.injEq] at h
            obtain ⟨-, ho, hap, hit⟩ := h
            subst ho; subst hap; subst hit
            exact v1_first_find_miss face colr bv1 g ap ⟨it.num_layers, 0, none⟩
              hc hver hnum hbv rfl hfind
          · by_cases hlao : (record.layer_array_offset = 0 ∨
                record.layer_array_offset > colr.table_size)
            · have e1 := v1_first_lao_bad face colr bv1 g ap it record hc hver hnum
                hbv hp0 hfind hlao
              rw [e1] at h
              simp only [Option.some.injEq, Prod.mk.injEq] at h
              obtain ⟨-, ho, hap, hit⟩ := h
              subst ho; subst hap; subst hit
              exact v1_first_lao_bad face colr bv1 g ap ⟨it.num_layers, 0, none⟩
                record hc hver hnum hbv rfl hfind hlao
            · rcases hn : readU32 colr.data (bv1 + record.layer_array_offset)
                  with _ | n
              · rw [v1_first_n_none face colr bv1 g ap it record hc hver hnum hbv
                  hp0 hfind hlao hn] at h
                exact Option.noConfusion h
              · by_cases hchk : bv1 + record.layer_array_offset + 4 > colr.table_size
                · have e1 := v1_first_chk_bad face colr bv1 g n ap it record hc hver
                    hnum hbv hp0 hfind hlao hn hchk
                  rw [e1] at h
                  simp only [Option.some.injEq, Prod.mk.injEq] at h
                  obtain ⟨-, ho, hap, hit⟩ := h
                  subst ho; subst hap; subst hit
                  exact v1_first_chk_bad face colr bv1 g n ap ⟨n, 0, none⟩ record
                    hc hver hnum hbv rfl hfind hlao hn hchk
                · rw [v1_first_transfer face colr bv1 g n ap it record hc hver hnum
                    hbv hp0 hfind hlao hn hchk] at h
                  have hstate := v1_nonfirst_fail_state face g ap
                    ⟨n, 0, some (bv1 + record.layer_array_offset + 4)⟩ it' o ap'
                    (by simp) h
                  subst hstate
                  exact h

/-! Concrete tables and states used by the evaluation/counterexample
theorems below. -/

/-- An arbitrary prior value of the output paint struct; its affine part is
`⟨9, 9, 9, 9⟩` so that an unwritten affine is visible. -/
def paint9 : FT_COLR_Paint :=
  ⟨0, 0, 0, ⟨0, ⟨0, 0, 0⟩⟩, 0, 0, 0, 0, 0, 0, 0, 0, 0, 0, 0, 0, ⟨9, 9, 9, 9⟩⟩

/-- A version-0 table: one base glyph (gid 5) with 2 layers; the first layer
record carries gid 99 (out of range for a 10-glyph face), the second gid 1
(valid). -/
def tblC4 : List Nat :=
  [0,0, 0,1, 0,0,0,14, 0,0,0,20, 0,2, 0,5, 0,0, 0,2, 0,99, 0,0, 0,1, 0,0]

def colrC4 : Colr := ⟨0, 1, 2, 14, 20, 0, none, 28, tblC4⟩

def faceC4 : Face := { num_glyphs := 10, num_palette_entries := 2, colr := some colrC4 }

/-- A version-1 table accepted by the Table Decoder whose single layer paint
is a linear gradient with color-line offset `0xFFFF`, far past the 44-byte
table end. -/
def tblC1 : List Nat :=
  [0,1, 0,0, 0,0,0,0, 0,0,0,0, 0,0, 0,0,0,18, 0,0,0,1, 0,5, 0,0,0,10,
   0,0,0,1, 0,0, 0,0,0,10, 0,2, 0,0,255,255]

def colrC1 : Colr := ⟨1, 0, 0, 0, 0, 1, some 18, 44, tblC1⟩

def faceC1 : Face := { num_glyphs := 10, num_palette_entries := 2, colr := some colrC1 }

/-- A version-1 table accepted by the Table Decoder whose single layer
record carries gid 5 and a well-formed Solid paint. -/
def tblC5 : List Nat :=
  [0,1, 0,0, 0,0,0,0, 0,0,0,0, 0,0, 0,0,0,18, 0,0,0,1, 0,5, 0,0,0,10,
   0,0,0,1, 0,5, 0,0,0,10, 0,1, 0,0, 0,123, 0,0,0,0]

def colrC5 : Colr := ⟨1, 0, 0, 0, 0, 1, some 18, 48, tblC5⟩

/-- A face with exactly 5 glyphs, so the valid gids are 0..4 and the layer
record gid 5 of `tblC5` is out of range. -/
def faceC5 : Face := { num_glyphs := 5, num_palette_entries := 2, colr := some colrC5 }

/-- A RadialGradient paint record whose 4-byte affine offset (bytes 42-45)
is zero; its color line (offset 46) is valid with extend 1 and no stops. -/
def tblC3zero : List Nat :=
  [0,3, 0,0,0,46, 0,7, 0,0,0,0, 0,8, 0,0,0,0, 0,2, 0,0,0,0, 0,9, 0,0,0,0,
   0,4, 0,0,0,0, 0,6, 0,0,0,0, 0,0,0,0, 0,1, 0,0]

def colrC3zero : Colr := ⟨1, 0, 0, 0, 0, 1, some 0, 50, tblC3zero⟩

/-- The same RadialGradient paint with affine offset 50; the affine record
at 50 has components 2, 3, -4 (0xFFFFFFFC), 5. -/
def tblC3aff : List Nat :=
  [0,3, 0,0,0,46, 0,7, 0,0,0,0, 0,8, 0,0,0,0, 0,2, 0,0,0,0, 0,9, 0,0,0,0,
   0,4, 0,0,0,0, 0,6, 0,0,0,0, 0,0,0,50, 0,1, 0,0,
   0,0,0,2, 0,0,0,0, 0,0,0,3, 0,0,0,0, 255,255,255,252, 0,0,0,0,
   0,0,0,5, 0,0,0,0]

def colrC3aff : Colr := ⟨1, 0, 0, 0, 0, 1, some 0, 82, tblC3aff⟩

/-- A Solid paint record with palette index 258 (0x0102) and alpha 200. -/
def tblC3solid : List Nat := [0,1, 1,2, 0,200, 0,0,0,0]

def colrC3solid : Colr := ⟨1, 0, 0, 0, 0, 1, some 0, 10, tblC3solid⟩

/-- A version-0 table like `tblC4` but with both layer records valid:
gids 3 and 1, color indices 0 and 1, on a 10-glyph face with 2 palette
entries. -/
def tblC7 : List Nat :=
  [0,0, 0,1, 0,0,0,14, 0,0,0,20, 0,2, 0,5, 0,0, 0,2, 0,3, 0,0, 0,1, 0,1]

def colrC7 : Colr := ⟨0, 1, 2, 14, 20, 0, none, 28, tblC7⟩

def faceC7 : Face := { num_glyphs := 10, num_palette_entries := 2, colr := some colrC7 }

/-- C5 (amended): the v0 iterator rejects a decoded gid ≥ the face's glyph
count and a palette index that is neither the `0xFFFF` sentinel nor within
the palette (and succeeds only when both validations pass); the v1 iterator
rejects only gid > glyph count — a record with gid equal to the glyph count
is accepted. -/
theorem claim_C5 :
    (∀ (face : Face) (colr : Colr) (g : Nat) (it : FT_LayerIterator) (pos gi ci : Nat),
      face.colr = some colr → it.p = some pos → it.layer < it.num_layers →
      readU16 colr.data pos = some gi → readU16 colr.data (pos + 2) = some ci →
      (gi ≥ face.num_glyphs ∨ (ci ≠ 0xFFFF ∧ ci ≥ face.num_palette_entries)) →
      tt_face_get_colr_layer face g it =
        some (false, some (gi, ci),
          ⟨it.num_layers, it.layer, some (pos + LAYER_SIZE)⟩)) ∧
    (∀ (face : Face) (g : Nat) (it it' : FT_LayerIterator) (gi ci : Nat),
      tt_face_get_colr_layer face g it = some (true, some (gi, ci), it') →
      gi < face.num_glyphs ∧ (ci = 0xFFFF ∨ ci < face.num_palette_entries)) ∧
    (∀ (face : Face) (colr : Colr) (base_v1 g : Nat) (apaint : FT_COLR_Paint)
      (it : FT_LayerIterator) (pos gi : Nat),
      face.colr = some colr → 1 ≤ colr.version → colr.num_base_glyphs_v1 ≠ 0 →
      colr.base_glyphs_v1 = some base_v1 → it.p = some pos →
      it.layer < it.num_layers → readU16 colr.data pos = some gi →
      gi > face.num_glyphs →
      tt_face_get_colr_layer_gradients face g apaint it =
        some (false, none, apaint, it)) ∧
    (∀ (face : Face) (g : Nat) (apaint apaint' : FT_COLR_Paint)
      (it it' : FT_LayerIterator) (gi : Nat),
      tt_face_get_colr_layer_gradients face g apaint it =
        some (true, some gi, apaint', it') →
      gi ≤ face.num_glyphs) :=
  ⟨v0_call_reject, v0_success_inv, v1_call_reject, v1_success_inv⟩

/-- Concrete instantiation of C5: the v0 iterator rejects the layer record
with gid 99 on a 10-glyph face. -/
theorem claim_C5_witness :
    tt_face_get_colr_layer faceC4 5 ⟨2, 0, some 20⟩ =
      some (false, some (99, 0), ⟨2, 0, some 24⟩) := by
  have h := claim_C5.1 faceC4 colrC4 5 ⟨2, 0, some 20⟩ 20 99 0 rfl rfl (by decide)
    (by decide) (by decide) (by decide)
  simpa [LAYER_SIZE] using h

/-- Concrete instantiation of C7 on `tblC7` (two valid layers): the fresh
call yields the first pair, and the call at the exhausted cursor signals
end-of-iteration. -/
theorem claim_C7_witness :
    tt_face_get_colr_layer faceC7 5 ⟨0, 0, none⟩ =
      some (true, some (3, 0), ⟨2, 1, some 24⟩) ∧
    tt_face_get_colr_layer faceC7 5 ⟨2, 2, some 28⟩ =
      some (false, none, ⟨2, 2, some 28⟩) := by
  have h := claim_C7 faceC7 colrC7 5 0 2
    (fun i => if i = 0 then 3 else 1) (fun i => if i = 0 then 0 else 1)
    rfl (by decide) (by decide) (by decide) (by decide)
  constructor
  · have h1 := h.2.1 ⟨0, 0, none⟩ rfl (by decide)
    simpa [colrC7, LAYER_SIZE] using h1
  · exact h.2.2.1 28

/-- C4 (amended): a per-record decode failure terminates the current call
with a failure result.  For the color-stop iteration and the v1 paint
iteration the failure is latched: the failing call leaves the cursor
unchanged (or at an equivalently failing state), and calling again on the
returned cursor fails identically.  For the v0 layer iteration the failure
is not latched: the failing call advances the record pointer by one record
without advancing the layer counter, so a subsequent call decodes the next
record and may yield further layers (see the counterexample). -/
theorem claim_C4 :
    (∀ (face : Face) (it it' : FT_ColorStopIterator) (cs : Option FT_ColorStop),
      tt_face_get_colorline_stops face it = some (false, cs, it') →
      cs = none ∧ it' = it ∧
      tt_face_get_colorline_stops face it' = some (false, none, it')) ∧
    (∀ (face : Face) (g : Nat) (ap : FT_COLR_Paint) (it it' : FT_LayerIterator)
      (o : Option Nat) (ap' : FT_COLR_Paint),
      tt_face_get_colr_layer_gradients face g ap it = some (false, o, ap', it') →
      tt_face_get_colr_layer_gradients face g ap it' = some (false, o, ap', it')) ∧
    (∀ (face : Face) (colr : Colr) (g : Nat) (it : FT_LayerIterator) (pos gi ci : Nat),
      face.colr = some colr → it.p = some pos → it.layer < it.num_layers →
      readU16 colr.data pos = some gi → readU16 colr.data (pos + 2) = some ci →
      (gi ≥ face.num_glyphs ∨ (ci ≠ 0xFFFF ∧ ci ≥ face.num_palette_entries)) →
      tt_face_get_colr_layer face g it =
        some (false, some (gi, ci),
          ⟨it.num_layers, it.layer, some (pos + LAYER_SIZE)⟩)) :=
  ⟨stops_fail_latch, v1_fail_latch, v0_call_reject⟩

/-- Concrete instantiation of C4 (amended): a failing stop read and a
failed v1 lookup are latched; the v0 rejection advances the record pointer
while keeping the layer counter. -/
theorem claim_C4_witness :
    tt_face_get_colorline_stops faceC5 ⟨5, 0, 100⟩ =
      some (false, none, ⟨5, 0, 100⟩) ∧
    tt_face_get_colr_layer_gradients faceC5 6 paint9 ⟨0, 0, none⟩ =
      some (false, none, paint9, ⟨0, 0, none⟩) ∧
    tt_face_get_colr_layer faceC4 5 ⟨2, 0, some 20⟩ =
      some (false, some (99, 0), ⟨2, 0, some 24⟩) := by
  refine ⟨?_, ?_, ?_⟩
  · exact (claim_C4.1 faceC5 ⟨5, 0, 100⟩ ⟨5, 0, 100⟩ none (by rfl)).2.2
  · exact claim_C4.2.1 faceC5 6 paint9 ⟨0, 0, none⟩ ⟨0, 0, none⟩ none paint9 (by rfl)
  · have h := claim_C4.2.2 faceC4 colrC4 5 ⟨2, 0, some 20⟩ 20 99 0 rfl rfl (by decide)
      (by decide) (by decide) (by decide)
    simpa [LAYER_SIZE] using h

/-- C1 (code bug): the traversal functions can read outside the table
buffer.  `tblC1` is accepted by the Table Decoder, yet the very first
`tt_face_get_colr_layer_gradients` call reads at table offset
`38 + 0xFFFF` — far past the 44-byte end — because `read_color_line`
dereferences `paint_base + colorline_offset` with no bounds check (the
`none` result is the model's out-of-bounds marker). -/
theorem claim_C1 :
    tt_face_load_colr true tblC1 = .ok colrC1 ∧
    tt_face_get_colr_layer_gradients faceC1 5 paint9 ⟨0, 0, none⟩ = none :=
  ⟨rfl, rfl⟩

/-- C3 (code bug): decoding a RadialGradient whose affine offset is zero
returns success but leaves the caller's affine untouched (here `⟨9,9,9,9⟩`),
not the identity: the C code returns before its (transposed, dead) "unity
matrix" assignment.  The other two parts of the claim hold: a nonzero
affine offset yields the four signed components verbatim, and a Solid paint
round-trips palette index and alpha exactly. -/
theorem claim_C3 :
    (read_paint colrC3zero 0 0 paint9).map (fun r => (r.1, r.2.radial_affine)) =
      some (true, ⟨9, 9, 9, 9⟩) ∧
    (⟨9, 9, 9, 9⟩ : FT_Matrix) ≠ ⟨1, 0, 0, 1⟩ ∧
    (read_paint colrC3aff 0 0 paint9).map (fun r => (r.1, r.2.radial_affine)) =
      some (true, ⟨2, 3, -4, 5⟩) ∧
    (read_paint colrC3solid 0 0 paint9).map
        (fun r => (r.1, r.2.solid_palette_index, r.2.solid_alpha)) =
      some (true, 258, 200) := by
  refine ⟨rfl, by decide, rfl, rfl⟩

/-- C4 counterexample: after the first `tt_face_get_colr_layer` call fails
on the out-of-range gid 99, a second call on the returned cursor succeeds
and yields the next layer — the failure does not terminate the traversal. -/
theorem claim_C4_counterexample :
    tt_face_load_colr true tblC4 = .ok colrC4 ∧
    tt_face_get_colr_layer faceC4 5 ⟨0, 0, none⟩ =
      some (false, some (99, 0), ⟨2, 0, some 24⟩) ∧
    tt_face_get_colr_layer faceC4 5 ⟨2, 0, some 24⟩ =
      some (true, some (1, 0), ⟨2, 1, some 28⟩) :=
  ⟨rfl, rfl, rfl⟩

/-- C5 counterexample: the v1 iterator accepts a layer record whose gid
equals the face's total glyph count (gid 5 on a 5-glyph face): the C check
is `gid > num_glyphs`, not `≥`. -/
theorem claim_C5_counterexample :
    faceC5.num_glyphs = 5 ∧
    tt_face_load_colr true tblC5 = .ok colrC5 ∧
    (tt_face_get_colr_layer_gradients faceC5 5 paint9 ⟨0, 0, none⟩).map
        (fun r => (r.1, r.2.1)) = some (true, some 5) :=
  ⟨rfl, rfl, rfl⟩

/-! The compositor, `tt_face_colr_blend_layer` (ttcolr.c:573-746).
Bitmap buffers are modelled as total functions `Int → Nat` (byte values);
pointer arithmetic on `FT_Byte*` becomes `Int` index arithmetic from the
buffer start. -/

/-- `FT_PIXEL_MODE_BGRA`.  Modelled from the spec: the constant lives in
FreeType's public `ftimage.h`, not under `src/`; the spec only requires a
BGRA8 pixel format tag. -/
def FT_PIXEL_MODE_BGRA : Nat := 7

/-- `FT_GLYPH_FORMAT_BITMAP` (the four-byte tag `bits`); the numeric value
is immaterial to the claims. -/
def FT_GLYPH_FORMAT_BITMAP : Nat := 0x62697473

/-- `FT_PALETTE_FOR_DARK_BACKGROUND`.  Modelled from the spec: a
"for dark background" flag bit per palette (value from `ftcolor.h`). -/
def FT_PALETTE_FOR_DARK_BACKGROUND : Nat := 2

/-- The fields of `FT_Bitmap` the compositor uses. -/
structure FT_Bitmap where
  rows : Nat
  width : Nat
  pitch : Int
  buffer : Option (Int → Nat)
  pixel_mode : Nat
  num_grays : Nat

/-- The fields of `FT_GlyphSlot` the compositor uses (`own_bitmap` is the
`FT_GLYPH_OWN_BITMAP` bit of `internal->flags`). -/
structure FT_GlyphSlot where
  bitmap_left : Int
  bitmap_top : Int
  bitmap : FT_Bitmap
  own_bitmap : Bool
  format : Nat

/-- Colour resolution (ttcolr.c:671-708): the `0xFFFF` sentinel selects the
caller's foreground color if set, else opaque white on a dark-background
palette and opaque black otherwise; any other index reads the palette. -/
def resolveColor (face : Face) (color_index : Nat) : FT_Color :=
  if color_index = 0xFFFF then
    if face.have_foreground_color then face.foreground_color
    else
      match face.palette_flags with
      | some flags =>
        if (flags face.palette_index).land FT_PALETTE_FOR_DARK_BACKGROUND ≠ 0 then
          ⟨255, 255, 255, 255⟩
        else ⟨0, 0, 0, 255⟩
      | none => ⟨0, 0, 0, 255⟩
  else face.palette color_index

/-- One pixel of the blend loop (ttcolr.c:720-738): read the source
coverage `aa` and the four destination bytes, then store the four blended
bytes; the `(FT_Byte)` store is the mod-256 cast. -/
def blendPixel (b g r alpha : Nat) (src dst : Int → Nat) (sIdx dIdx : Int) :
    Int → Nat :=
  let aa := src sIdx
  let fa := alpha * aa / 255
  let fb := b * fa / 255
  let fg := g * fa / 255
  let fr := r * fa / 255
  let ba2 := 255 - fa
  let bb := dst (dIdx + 0)
  let bg := dst (dIdx + 1)
  let br := dst (dIdx + 2)
  let ba := dst (dIdx + 3)
  fun i =>
    if i = dIdx + 0 then (bb * ba2 / 255 + fb) % 256
    else if i = dIdx + 1 then (bg * ba2 / 255 + fg) % 256
    else if i = dIdx + 2 then (br * ba2 / 255 + fr) % 256
    else if i = dIdx + 3 then (ba * ba2 / 255 + fa) % 256
    else dst i

/-- The inner `x` loop (ttcolr.c:718-739), processing columns `0..w`. -/
def blendCols (b g r alpha : Nat) (src : Int → Nat) (dst : Int → Nat)
    (sBase dBase : Int) : Nat → (Int → Nat)
  | 0 => dst
  | x + 1 =>
    blendPixel b g r alpha src
      (blendCols b g r alpha src dst sBase dBase x) (sBase + x) (dBase + 4 * x)

/-- The outer `y` loop (ttcolr.c:716-743): row `y` reads source bytes at
`y * srcPitch` and writes at `dBase + y * dstPitch`, each bitmap using its
own stride. -/
def blendRows (b g r alpha : Nat) (src : Int → Nat) (srcPitch : Int)
    (dst : Int → Nat) (dBase dstPitch : Int) (w : Nat) : Nat → (Int → Nat)
  | 0 => dst
  | y + 1 =>
    blendCols b g r alpha src
      (blendRows b g r alpha src srcPitch dst dBase dstPitch w y)
      (y * srcPitch) (dBase + y * dstPitch) w

/-- `FT_MEM_COPY( q, p, len )` between two distinct buffers. -/
def memCopy (dst : Int → Nat) (qBase : Int) (src : Int → Nat) (pBase : Int)
    (len : Nat) : Int → Nat :=
  fun i => if qBase ≤ i ∧ i < qBase + len then src (pBase + (i - qBase)) else dst i

/-- The row-copy loop of the canvas growth path (ttcolr.c:649-655): row `y`
of the old canvas (at `y * oldPitch`, `len` bytes) is copied to
`qBase + y * newPitch` in the new buffer. -/
def copyRows (src : Int → Nat) (oldPitch : Int) (dst : Int → Nat)
    (qBase newPitch : Int) (len : Nat) : Nat → (Int → Nat)
  | 0 => dst
  | y + 1 =>
    memCopy (copyRows src oldPitch dst qBase newPitch len y)
      (qBase + y * newPitch) src (y * oldPitch) len

/-- The canvas-growth step of `tt_face_colr_blend_layer` (ttcolr.c:610-668):
if the union bounding box of canvas and layer differs from the canvas
bounds, allocate a zero-filled buffer of the union size, copy every
existing row to its new position, and update origin/size/pitch; the first
component is `false` exactly when the allocation fails, in which case the
slot is returned unchanged. -/
def growCanvas (dstSlot srcSlot : FT_GlyphSlot) (dbuf : Int → Nat)
    (allocOk : Bool) : Bool × FT_GlyphSlot :=
  let x_min := min dstSlot.bitmap_left srcSlot.bitmap_left
  let x_max := max (dstSlot.bitmap_left + (dstSlot.bitmap.width : Int))
                   (srcSlot.bitmap_left + (srcSlot.bitmap.width : Int))
  let y_min := min (dstSlot.bitmap_top - (dstSlot.bitmap.rows : Int))
                   (srcSlot.bitmap_top - (srcSlot.bitmap.rows : Int))
  let y_max := max dstSlot.bitmap_top srcSlot.bitmap_top
  if x_min ≠ dstSlot.bitmap_left ∨
     x_max ≠ dstSlot.bitmap_left + (dstSlot.bitmap.width : Int) ∨
     y_min ≠ dstSlot.bitmap_top - (dstSlot.bitmap.rows : Int) ∨
     y_max ≠ dstSlot.bitmap_top then
    let width := (x_max - x_min).toNat
    let rows := (y_max - y_min).toNat
    let pitch : Nat := width * 4
    if !allocOk then (false, dstSlot)
    else
      let buf0 : Int → Nat := fun _ => 0
      let qBase : Int := (pitch : Int) * (y_max - dstSlot.bitmap_top) +
        4 * (dstSlot.bitmap_left - x_min)
      let buf := copyRows dbuf dstSlot.bitmap.pitch buf0 qBase (pitch : Int)
        (dstSlot.bitmap.width * 4) dstSlot.bitmap.rows
      (true, { dstSlot with
        bitmap_top := y_max,
        bitmap_left := x_min,
        bitmap := { dstSlot.bitmap with
          width := width, rows := rows, pitch := (pitch : Int),
          buffer := some buf },
        own_bitmap := true,
        format := FT_GLYPH_FORMAT_BITMAP })
  else (true, dstSlot)

/-- The colour-resolution plus blend-loop phase (ttcolr.c:671-743), run
after the destination buffer exists.  A missing source buffer is returned
unchanged (the C loop would read through a NULL pointer; no claim
instantiates it). -/
def blendApply (face : Face) (color_index : Nat) (dstSlot srcSlot : FT_GlyphSlot) :
    FT_GlyphSlot :=
  let c := resolveColor face color_index
  match dstSlot.bitmap.buffer, srcSlot.bitmap.buffer with
  | some dbuf, some sbuf =>
    let d0 : Int := dstSlot.bitmap.pitch * (dstSlot.bitmap_top - srcSlot.bitmap_top) +
      4 * (srcSlot.bitmap_left - dstSlot.bitmap_left)
    let nb := blendRows c.blue c.green c.red c.alpha sbuf srcSlot.bitmap.pitch
      dbuf d0 dstSlot.bitmap.pitch srcSlot.bitmap.width srcSlot.bitmap.rows
    { dstSlot with bitmap := { dstSlot.bitmap with buffer := some nb } }
  | _, _ => dstSlot

/-- `tt_face_colr_blend_layer` (ttcolr.c:573-746).  `allocOk` models the
success of the single allocation a call can perform; the `Bool` result is
`true` for `FT_Err_Ok`, and the slot is the state of `*dstSlot` on return
(on the init path the C code has already replaced the metadata when the
allocation fails). -/
def tt_face_colr_blend_layer (face : Face) (color_index : Nat)
    (dstSlot srcSlot : FT_GlyphSlot) (allocOk : Bool) : Bool × FT_GlyphSlot :=
  match dstSlot.bitmap.buffer with
  | none =>
    let dstSlot := { dstSlot with
      bitmap_left := srcSlot.bitmap_left,
      bitmap_top := srcSlot.bitmap_top,
      bitmap := { dstSlot.bitmap with
        width := srcSlot.bitmap.width,
        rows := srcSlot.bitmap.rows,
        pixel_mode := FT_PIXEL_MODE_BGRA,
        pitch := (srcSlot.bitmap.width : Int) * 4,
        num_grays := 256 } }
    if !allocOk then (false, dstSlot)
    else
      let dstSlot := { dstSlot with
        bitmap := { dstSlot.bitmap with buffer := some (fun _ => 0) } }
      (true, blendApply face color_index dstSlot srcSlot)
  | some dbuf =>
    match growCanvas dstSlot srcSlot dbuf allocOk with
    | (false, s) => (false, s)
    | (true, s) => (true, blendApply face color_index s srcSlot)

/-! Pointwise characterisation of the blend loops (C8). -/

theorem blendPixel_other (b g r alpha : Nat) (src dst : Int → Nat) (sIdx dIdx i : Int)
    (h : i < dIdx ∨ dIdx + 4 ≤ i) :
    blendPixel b g r alpha src dst sIdx dIdx i = dst i := by
  unfold blendPixel
  rw [if_neg (by omega), if_neg (by omega), if_neg (by omega), if_neg (by omega)]

theorem blendPixel_at (b g r alpha : Nat) (src dst : Int → Nat) (sIdx dIdx : Int) :
    blendPixel b g r alpha src dst sIdx dIdx (dIdx + 0) =
      (dst (dIdx + 0) * (255 - alpha * src sIdx / 255) / 255 +
        b * (alpha * src sIdx / 255) / 255) % 256 ∧
    blendPixel b g r alpha src dst sIdx dIdx (dIdx + 1) =
      (dst (dIdx + 1) * (255 - alpha * src sIdx / 255) / 255 +
        g * (alpha * src sIdx / 255) / 255) % 256 ∧
    blendPixel b g r alpha src dst sIdx dIdx (dIdx + 2) =
      (dst (dIdx + 2) * (255 - alpha * src sIdx / 255) / 255 +
        r * (alpha * src sIdx / 255) / 255) % 256 ∧
    blendPixel b g r alpha src dst sIdx dIdx (dIdx + 3) =
      (dst (dIdx + 3) * (255 - alpha * src sIdx / 255) / 255 +
        alpha * src sIdx / 255) % 256 := by
  unfold blendPixel
  refine ⟨by rw [if_pos rfl], ?_, ?_, ?_⟩
  · rw [if_neg (by omega), if_pos rfl]
  · rw [if_neg (by omega), if_neg (by omega), if_pos rfl]
  · rw [if_neg (by omega), if_neg (by omega), if_neg (by omega), if_pos rfl]

theorem blendCols_other (b g r alpha : Nat) (src dst : Int → Nat) (sBase dBase : Int)
    (w : Nat) (i : Int) (h : i < dBase ∨ dBase + 4 * w ≤ i) :
    blendCols b g r alpha src dst sBase dBase w i = dst i := by
  induction w with
  | zero => rfl
  | succ x ih =>
    simp only [blendCols]
    rw [blendPixel_other _ _ _ _ _ _ _ _ _ (by omega)]
    exact ih (by omega)

theorem blendCols_at (b g r alpha : Nat) (src dst : Int → Nat) (sBase dBase : Int)
    (w : Nat) (x : Nat) (hx : x < w) :
    blendCols b g r alpha src dst sBase dBase w (dBase + 4 * x + 0) =
      (dst (dBase + 4 * x + 0) * (255 - alpha * src (sBase + x) / 255) / 255 +
        b * (alpha * src (sBase + x) / 255) / 255) % 256 ∧
    blendCols b g r alpha src dst sBase dBase w (dBase + 4 * x + 1) =
      (dst (dBase + 4 * x + 1) * (255 - alpha * src (sBase + x) / 255) / 255 +
        g * (alpha * src (sBase + x) / 255) / 255) % 256 ∧
    blendCols b g r alpha src dst sBase dBase w (dBase + 4 * x + 2) =
      (dst (dBase + 4 * x + 2) * (255 - alpha * src (sBase + x) / 255) / 255 +
        r * (alpha * src (sBase + x) / 255) / 255) % 256 ∧
    blendCols b g r alpha src dst sBase dBase w (dBase + 4 * x + 3) =
      (dst (dBase + 4 * x + 3) * (255 - alpha * src (sBase + x) / 255) / 255 +
        alpha * src (sBase + x) / 255) % 256 := by
  induction w with
  | zero => omega
  | succ v ih =>
    simp only [blendCols]
    rcases Nat.lt_succ_iff_lt_or_eq.mp hx with hx' | hx'
    · have h0 := blendPixel_other b g r alpha src
        (blendCols b g r alpha src dst sBase dBase v) (sBase + v) (dBase + 4 * v)
        (dBase + 4 * x + 0) (by omega)
      have h1 := blendPixel_other b g r alpha src
        (blendCols b g r alpha src dst sBase dBase v) (sBase + v) (dBase + 4 * v)
        (dBase + 4 * x + 1) (by omega)
      have h2 := blendPixel_other b g r alpha src
        (blendCols b g r alpha src dst sBase dBase v) (sBase + v) (dBase + 4 * v)
        (dBase + 4 * x + 2) (by omega)
      have h3 := blendPixel_other b g r alpha src
        (blendCols b g r alpha src dst sBase dBase v) (sBase + v) (dBase + 4 * v)
        (dBase + 4 * x + 3) (by omega)
      rw [h0, h1, h2, h3]
      exact ih hx'
    · subst hx'
      have hat := blendPixel_at b g r alpha src
        (blendCols b g r alpha src dst sBase dBase x) (sBase + x) (dBase + 4 * x)
      have r0 := blendCols_other b g r alpha src dst sBase dBase x
        (dBase + 4 * x + 0) (by omega)
      have r1 := blendCols_other b g r alpha src dst sBase dBase x
        (dBase + 4 * x + 1) (by omega)
      have r2 := blendCols_other b g r alpha src dst sBase dBase x
        (dBase + 4 * x + 2) (by omega)
      have r3 := blendCols_other b g r alpha src dst sBase dBase x
        (dBase + 4 * x + 3) (by omega)
      rw [hat.1, hat.2.1, hat.2.2.1, hat.2.2.2, r0, r1, r2, r3]
      exact ⟨rfl, rfl, rfl, rfl⟩

theorem blendRows_other (b g r alpha : Nat) (src : Int → Nat) (sp : Int)
    (dst : Int → Nat) (dBase dp : Int) (w n : Nat) (i : Int)
    (h : ∀ y : Nat, y < n → ¬ (dBase + y * dp ≤ i ∧ i < dBase + y * dp + 4 * w)) :
    blendRows b g r alpha src sp dst dBase dp w n i = dst i := by
  induction n with
  | zero => rfl
  | succ v ih =>
    simp only [blendRows]
    have hside : i < (dBase + (v : Int) * dp) ∨ (dBase + (v : Int) * dp) + 4 * w ≤ i := by
      rcases not_and_or.mp (h v (Nat.lt_succ_self v)) with h' | h'
      · exact Or.inl (lt_of_not_le h')
      · exact Or.inr (le_of_not_lt h')
    rw [blendCols_other b g r alpha src _ ((v : Int) * sp) (dBase + (v : Int) * dp)
      w i hside]
    exact ih (fun y' hy' => h y' (Nat.lt_succ_of_lt hy'))

theorem blendRows_at (b g r alpha : Nat) (src : Int → Nat) (sp : Int)
    (dst : Int → Nat) (dBase dp : Int) (w n : Nat)
    (hp : (4 : Int) * w ≤ dp) (y x : Nat) (hy : y < n) (hx : x < w) :
    blendRows b g r alpha src sp dst dBase dp w n (dBase + y * dp + 4 * x + 0) =
      (dst (dBase + y * dp + 4 * x + 0) *
          (255 - alpha * src (y * sp + x) / 255) / 255 +
        b * (alpha * src (y * sp + x) / 255) / 255) % 256 ∧
    blendRows b g r alpha src sp dst dBase dp w n (dBase + y * dp + 4 * x + 1) =
      (dst (dBase + y * dp + 4 * x + 1) *
          (255 - alpha * src (y * sp + x) / 255) / 255 +
        g * (alpha * src (y * sp + x) / 255) / 255) % 256 ∧
    blendRows b g r alpha src sp dst dBase dp w n (dBase + y * dp + 4 * x + 2) =
      (dst (dBase + y * dp + 4 * x + 2) *
          (255 - alpha * src (y * sp + x) / 255) / 255 +
        r * (alpha * src (y * sp + x) / 255) / 255) % 256 ∧
    blendRows b g r alpha src sp dst dBase dp w n (dBase + y * dp + 4 * x + 3) =
      (dst (dBase + y * dp + 4 * x + 3) *
          (255 - alpha * src (y * sp + x) / 255) / 255 +
        alpha * src (y * sp + x) / 255) % 256 := by
  have hdp0 : (0 : Int) ≤ dp := le_trans (by positivity) hp
  induction n with
  | zero => omega
  | succ v ih =>
    simp only [blendRows]
    rcases Nat.lt_succ_iff_lt_or_eq.mp hy with hy' | hy'
    · have hrow : ((y : Int) + 1) * dp ≤ (v : Int) * dp :=
        mul_le_mul_of_nonneg_right (by exact_mod_cast hy') hdp0
      have hlt : ∀ ch : Int, 0 ≤ ch → ch < 4 →
          dBase + (y : Int) * dp + 4 * (x : Int) + ch < dBase + (v : Int) * dp := by
        intro ch h0 h4
        have hxw : (4 : Int) * (x : Int) + ch < 4 * (w : Int) := by
          push_cast
          omega
        nlinarith [hrow, hp]
      have h0 := blendCols_other b g r alpha src
        (blendRows b g r alpha src sp dst dBase dp w v) ((v : Int) * sp)
        (dBase + (v : Int) * dp) w (dBase + y * dp + 4 * x + 0)
        (Or.inl (hlt 0 (by omega) (by omega)))
      have h1 := blendCols_other b g r alpha src
        (blendRows b g r alpha src sp dst dBase dp w v) ((v : Int) * sp)
        (dBase + (v : Int) * dp) w (dBase + y * dp + 4 * x + 1)
        (Or.inl (hlt 1 (by omega) (by omega)))
      have h2 := blendCols_other b g r alpha src
        (blendRows b g r alpha src sp dst dBase dp w v) ((v : Int) * sp)
        (dBase + (v : Int) * dp) w (dBase + y * dp + 4 * x + 2)
        (Or.inl (hlt 2 (by omega) (by omega)))
      have h3 := blendCols_other b g r alpha src
        (blendRows b g r alpha src sp dst dBase dp w v) ((v : Int) * sp)
        (dBase + (v : Int) * dp) w (dBase + y * dp + 4 * x + 3)
        (Or.inl (hlt 3 (by omega) (by omega)))
      rw [h0, h1, h2, h3]
      exact ih hy'
    · subst hy'
      have hesc : ∀ ch : Int, 0 ≤ ch → ch < 4 →
          ∀ y' : Nat, y' < y →
          ¬ (dBase + (y' : Int) * dp ≤ dBase + (y : Int) * dp + 4 * (x : Int) + ch ∧
             dBase + (y : Int) * dp + 4 * (x : Int) + ch <
               dBase + (y' : Int) * dp + 4 * (w : Int)) := by
        intro ch h0 h4 y' hy'
        rintro ⟨-, hlt2⟩
        have hrow : ((y' : Int) + 1) * dp ≤ (y : Int) * dp :=
          mul_le_mul_of_nonneg_right (by exact_mod_cast hy') hdp0
        nlinarith [hrow, hp]
      have hat := blendCols_at b g r alpha src
        (blendRows b g r alpha src sp dst dBase dp w y) ((y : Int) * sp)
        (dBase + (y : Int) * dp) w x hx
      have r0 := blendRows_other b g r alpha src sp dst dBase dp w y
        (dBase + (y : Int) * dp + 4 * (x : Int) + 0)
        (fun y' hy' => hesc 0 (by omega) (by omega) y' hy')
      have r1 := blendRows_other b g r alpha src sp dst dBase dp w y
        (dBase + (y : Int) * dp + 4 * (x : Int) + 1)
        (fun y' hy' => hesc 1 (by omega) (by omega) y' hy')
      have r2 := blendRows_other b g r alpha src sp dst dBase dp w y
        (dBase + (y : Int) * dp + 4 * (x : Int) + 2)
        (fun y' hy' => hesc 2 (by omega) (by omega) y' hy')
      have r3 := blendRows_other b g r alpha src sp dst dBase dp w y
        (dBase + (y : Int) * dp + 4 * (x : Int) + 3)
        (fun y' hy' => hesc 3 (by omega) (by omega) y' hy')
      rw [hat.1, hat.2.1, hat.2.2.1, hat.2.2.2, r0, r1, r2, r3]
      exact ⟨rfl, rfl, rfl, rfl⟩

/-! Byte-range bounds: when every input of a blended pixel is a byte, the
stored value is a byte, so the `(FT_Byte)` mod-256 cast is the identity. -/

theorem fa_byte_le (alpha aa : Nat) (ha : alpha ≤ 255) (haa : aa ≤ 255) :
    alpha * aa / 255 ≤ 255 :=
  calc alpha * aa / 255 ≤ 255 * 255 / 255 :=
        Nat.div_le_div_right (Nat.mul_le_mul ha haa)
  _ = 255 := by norm_num

theorem blend_store_le (d c fa : Nat) (hd : d ≤ 255) (hc : c ≤ 255)
    (hfa : fa ≤ 255) : d * (255 - fa) / 255 + c * fa / 255 ≤ 255 := by
  have h1 : d * (255 - fa) / 255 ≤ 255 - fa :=
    calc d * (255 - fa) / 255 ≤ 255 * (255 - fa) / 255 :=
          Nat.div_le_div_right (Nat.mul_le_mul hd (le_refl _))
    _ = 255 - fa := Nat.mul_div_cancel_left _ (by norm_num)
  have h2 : c * fa / 255 ≤ fa :=
    calc c * fa / 255 ≤ 255 * fa / 255 :=
          Nat.div_le_div_right (Nat.mul_le_mul hc (le_refl _))
    _ = fa := Nat.mul_div_cancel_left _ (by norm_num)
  omega

theorem blend_store_alpha_le (d fa : Nat) (hd : d ≤ 255) (hfa : fa ≤ 255) :
    d * (255 - fa) / 255 + fa ≤ 255 := by
  have h1 : d * (255 - fa) / 255 ≤ 255 - fa :=
    calc d * (255 - fa) / 255 ≤ 255 * (255 - fa) / 255 :=
          Nat.div_le_div_right (Nat.mul_le_mul hd (le_refl _))
    _ = 255 - fa := Nat.mul_div_cancel_left _ (by norm_num)
  omega

/-! Pointwise characterisation of the row-copy loop (C9). -/

theorem memCopy_out (dst : Int → Nat) (qBase : Int) (src : Int → Nat)
    (pBase : Int) (len : Nat) (i : Int) (h : i < qBase ∨ qBase + len ≤ i) :
    memCopy dst qBase src pBase len i = dst i := by
  unfold memCopy
  rw [if_neg (by omega)]

theorem memCopy_in (dst : Int → Nat) (qBase : Int) (src : Int → Nat)
    (pBase : Int) (len : Nat) (i : Int) (h1 : qBase ≤ i)
    (h2 : i < qBase + len) : memCopy dst qBase src pBase len i =
      src (pBase + (i - qBase)) := by
  unfold memCopy
  rw [if_pos ⟨h1, h2⟩]

theorem copyRows_other (src : Int → Nat) (op : Int) (dst : Int → Nat)
    (qBase np : Int) (len n : Nat) (i : Int)
    (h : ∀ y : Nat, y < n → ¬ (qBase + y * np ≤ i ∧ i < qBase + y * np + len)) :
    copyRows src op dst qBase np len n i = dst i := by
  induction n with
  | zero => rfl
  | succ v ih =>
    simp only [copyRows]
    rw [memCopy_out _ _ _ _ _ _ (by
      rcases not_and_or.mp (h v (Nat.lt_succ_self v)) with h' | h'
      · exact Or.inl (lt_of_not_le h')
      · exact Or.inr (le_of_not_lt h'))]
    exact ih (fun y' hy' => h y' (Nat.lt_succ_of_lt hy'))

theorem copyRows_at (src : Int → Nat) (op : Int) (dst : Int → Nat)
    (qBase np : Int) (len n : Nat) (hlen : (len : Int) ≤ np)
    (y k : Nat) (hy : y < n) (hk : k < len) :
    copyRows src op dst qBase np len n (qBase + y * np + k) =
      src (y * op + k) := by
  have hnp0 : (0 : Int) ≤ np := le_trans (by positivity) hlen
  induction n with
  | zero => omega
  | succ v ih =>
    simp only [copyRows]
    rcases Nat.lt_succ_iff_lt_or_eq.mp hy with hy' | hy'
    · have hrow : ((y : Int) + 1) * np ≤ (v : Int) * np :=
        mul_le_mul_of_nonneg_right (by exact_mod_cast hy') hnp0
      have hkn : (k : Int) < np := lt_of_lt_of_le (by exact_mod_cast hk) hlen
      rw [memCopy_out _ _ _ _ _ _ (Or.inl (by nlinarith [hrow, hkn]))]
      exact ih hy'
    · subst hy'
      rw [memCopy_in _ _ _ _ _ _ (by omega) (by
        have hkl : (k : Int) < (len : Int) := by exact_mod_cast hk
        omega)]
      congr 1
      push_cast
      ring

/-! The union bounding box of the growth step (names for the `let`
bindings of ttcolr.c:610-631). -/

/-- `x_min` of the growth step. -/
def unionLeft (dstSlot srcSlot : FT_GlyphSlot) : Int :=
  min dstSlot.bitmap_left srcSlot.bitmap_left

/-- `x_max` of the growth step. -/
def unionRight (dstSlot srcSlot : FT_GlyphSlot) : Int :=
  max (dstSlot.bitmap_left + (dstSlot.bitmap.width : Int))
    (srcSlot.bitmap_left + (srcSlot.bitmap.width : Int))

/-- `y_min` of the growth step. -/
def unionBottom (dstSlot srcSlot : FT_GlyphSlot) : Int :=
  min (dstSlot.bitmap_top - (dstSlot.bitmap.rows : Int))
    (srcSlot.bitmap_top - (srcSlot.bitmap.rows : Int))

/-- `y_max` of the growth step. -/
def unionTop (dstSlot srcSlot : FT_GlyphSlot) : Int :=
  max dstSlot.bitmap_top srcSlot.bitmap_top

/-- The reallocated canvas width `x_max - x_min`. -/
def unionWidth (dstSlot srcSlot : FT_GlyphSlot) : Nat :=
  (unionRight dstSlot srcSlot - unionLeft dstSlot srcSlot).toNat

/-- The reallocated canvas rows `y_max - y_min`. -/
def unionRows (dstSlot srcSlot : FT_GlyphSlot) : Nat :=
  (unionTop dstSlot srcSlot - unionBottom dstSlot srcSlot).toNat

/-- The reallocated canvas pitch, `width * 4` bytes per BGRA row. -/
def unionPitch (dstSlot srcSlot : FT_GlyphSlot) : Nat :=
  unionWidth dstSlot srcSlot * 4

/-- The byte offset inside the new buffer where the old canvas's first row
lands (the initial `q` of ttcolr.c:649-655). -/
def growQBase (dstSlot srcSlot : FT_GlyphSlot) : Int :=
  (unionPitch dstSlot srcSlot : Int) *
      (unionTop dstSlot srcSlot - dstSlot.bitmap_top) +
    4 * (dstSlot.bitmap_left - unionLeft dstSlot srcSlot)

/-- C8: when the layer's footprint lies inside the canvas (so no growth
happens), `tt_face_colr_blend_layer` succeeds and updates the destination
buffer exactly by the integer truncating formula of ttcolr.c:710-743 —
with source coverage `aa` and resolved layer colour `(b,g,r,alpha)`,
`fa = alpha*aa/255`, each colour channel becomes
`dst*(255-fa)/255 + channel*fa/255` and the alpha channel
`dst*(255-fa)/255 + fa` — iterating row-major over the source footprint
with each bitmap's own stride (`255 - fa` needs no clamp and the
`(FT_Byte)` store truncates nothing because all inputs are bytes); every
byte outside the footprint is untouched. -/
theorem claim_C8 (face : Face) (color_index : Nat) (dstSlot srcSlot : FT_GlyphSlot)
    (dbuf sbuf : Int → Nat) (b g r alpha : Nat) (allocOk : Bool)
    (hdb : dstSlot.bitmap.buffer = some dbuf)
    (hsb : srcSlot.bitmap.buffer = some sbuf)
    (hc : resolveColor face color_index = ⟨b, g, r, alpha⟩)
    (hng1 : min dstSlot.bitmap_left srcSlot.bitmap_left = dstSlot.bitmap_left)
    (hng2 : max (dstSlot.bitmap_left + (dstSlot.bitmap.width : Int))
        (srcSlot.bitmap_left + (srcSlot.bitmap.width : Int)) =
      dstSlot.bitmap_left + (dstSlot.bitmap.width : Int))
    (hng3 : min (dstSlot.bitmap_top - (dstSlot.bitmap.rows : Int))
        (srcSlot.bitmap_top - (srcSlot.bitmap.rows : Int)) =
      dstSlot.bitmap_top - (dstSlot.bitmap.rows : Int))
    (hng4 : max dstSlot.bitmap_top srcSlot.bitmap_top = dstSlot.bitmap_top)
    (hpitch : (4 : Int) * srcSlot.bitmap.width ≤ dstSlot.bitmap.pitch)
    (hdbytes : ∀ i, dbuf i ≤ 255) (hsbytes : ∀ i, sbuf i ≤ 255)
    (hb : b ≤ 255) (hg : g ≤ 255) (hr : r ≤ 255) (ha : alpha ≤ 255) :
    ∃ newbuf : Int → Nat,
      tt_face_colr_blend_layer face color_index dstSlot srcSlot allocOk =
        (true, { dstSlot with
          bitmap := { dstSlot.bitmap with buffer := some newbuf } }) ∧
      (∀ y x : Nat, y < srcSlot.bitmap.rows → x < srcSlot.bitmap.width →
        newbuf (dstSlot.bitmap.pitch * (dstSlot.bitmap_top - srcSlot.bitmap_top) +
              4 * (srcSlot.bitmap_left - dstSlot.bitmap_left) +
            y * dstSlot.bitmap.pitch + 4 * x + 0) =
          dbuf (dstSlot.bitmap.pitch * (dstSlot.bitmap_top - srcSlot.bitmap_top) +
                4 * (srcSlot.bitmap_left - dstSlot.bitmap_left) +
              y * dstSlot.bitmap.pitch + 4 * x + 0) *
              (255 - alpha * sbuf (y * srcSlot.bitmap.pitch + x) / 255) / 255 +
            b * (alpha * sbuf (y * srcSlot.bitmap.pitch + x) / 255) / 255 ∧
        newbuf (dstSlot.bitmap.pitch * (dstSlot.bitmap_top - srcSlot.bitmap_top) +
              4 * (srcSlot.bitmap_left - dstSlot.bitmap_left) +
            y * dstSlot.bitmap.pitch + 4 * x + 1) =
          dbuf (dstSlot.bitmap.pitch * (dstSlot.bitmap_top - srcSlot.bitmap_top) +
                4 * (srcSlot.bitmap_left - dstSlot.bitmap_left) +
              y * dstSlot.bitmap.pitch + 4 * x + 1) *
              (255 - alpha * sbuf (y * srcSlot.bitmap.pitch + x) / 255) / 255 +
            g * (alpha * sbuf (y * srcSlot.bitmap.pitch + x) / 255) / 255 ∧
        newbuf (dstSlot.bitmap.pitch * (dstSlot.bitmap_top - srcSlot.bitmap_top) +
              4 * (srcSlot.bitmap_left - dstSlot.bitmap_left) +
            y * dstSlot.bitmap.pitch + 4 * x + 2) =
          dbuf (dstSlot.bitmap.pitch * (dstSlot.bitmap_top - srcSlot.bitmap_top) +
                4 * (srcSlot.bitmap_left - dstSlot.bitmap_left) +
              y * dstSlot.bitmap.pitch + 4 * x + 2) *
              (255 - alpha * sbuf (y * srcSlot.bitmap.pitch + x) / 255) / 255 +
            r * (alpha * sbuf (y * srcSlot.bitmap.pitch + x) / 255) / 255 ∧
        newbuf (dstSlot.bitmap.pitch * (dstSlot.bitmap_top - srcSlot.bitmap_top) +
              4 * (srcSlot.bitmap_left - dstSlot.bitmap_left) +
            y * dstSlot.bitmap.pitch + 4 * x + 3) =
          dbuf (dstSlot.bitmap.pitch * (dstSlot.bitmap_top - srcSlot.bitmap_top) +
                4 * (srcSlot.bitmap_left - dstSlot.bitmap_left) +
              y * dstSlot.bitmap.pitch + 4 * x + 3) *
              (255 - alpha * sbuf (y * srcSlot.bitmap.pitch + x) / 255) / 255 +
            alpha * sbuf (y * srcSlot.bitmap.pitch + x) / 255) ∧
      (∀ i : Int,
        (∀ y : Nat, y < srcSlot.bitmap.rows →
          ¬ (dstSlot.bitmap.pitch * (dstSlot.bitmap_top - srcSlot.bitmap_top) +
                4 * (srcSlot.bitmap_left - dstSlot.bitmap_left) +
              y * dstSlot.bitmap.pitch ≤ i ∧
            i < dstSlot.bitmap.pitch * (dstSlot.bitmap_top - srcSlot.bitmap_top) +
                  4 * (srcSlot.bitmap_left - dstSlot.bitmap_left) +
                y * dstSlot.bitmap.pitch + 4 * srcSlot.bitmap.width)) →
        newbuf i = dbuf i) := by
  have hgc : growCanvas dstSlot srcSlot dbuf allocOk = (true, dstSlot) := by
    simp only [growCanvas]
    rw [if_neg (by push_neg; exact ⟨hng1, hng2, hng3, hng4⟩)]
  refine ⟨blendRows b g r alpha sbuf srcSlot.bitmap.pitch dbuf
    (dstSlot.bitmap.pitch * (dstSlot.bitmap_top - srcSlot.bitmap_top) +
      4 * (srcSlot.bitmap_left - dstSlot.bitmap_left))
    dstSlot.bitmap.pitch srcSlot.bitmap.width srcSlot.bitmap.rows, ?_, ?_, ?_⟩
  · simp only [tt_face_colr_blend_layer, hdb, hgc]
    simp only [blendApply, hdb, hsb, hc]
  · intro y x hy hx
    have h := blendRows_at b g r alpha sbuf srcSlot.bitmap.pitch dbuf
      (dstSlot.bitmap.pitch * (dstSlot.bitmap_top - srcSlot.bitmap_top) +
        4 * (srcSlot.bitmap_left - dstSlot.bitmap_left))
      dstSlot.bitmap.pitch srcSlot.bitmap.width srcSlot.bitmap.rows
      hpitch y x hy hx
    have hfa : alpha * sbuf (y * srcSlot.bitmap.pitch + x) / 255 ≤ 255 :=
      fa_byte_le alpha _ ha (hsbytes _)
    refine ⟨?_, ?_, ?_, ?_⟩
    · rw [h.1]
      exact Nat.mod_eq_of_lt (lt_of_le_of_lt
        (blend_store_le _ _ _ (hdbytes _) hb hfa) (by norm_num))
    · rw [h.2.1]
      exact Nat.mod_eq_of_lt (lt_of_le_of_lt
        (blend_store_le _ _ _ (hdbytes _) hg hfa) (by norm_num))
    · rw [h.2.2.1]
      exact Nat.mod_eq_of_lt (lt_of_le_of_lt
        (blend_store_le _ _ _ (hdbytes _) hr hfa) (by norm_num))
    · rw [h.2.2.2]
      exact Nat.mod_eq_of_lt (lt_of_le_of_lt
        (blend_store_alpha_le _ _ (hdbytes _) hfa) (by norm_num))
  · intro i hi
    exact blendRows_other b g r alpha sbuf srcSlot.bitmap.pitch dbuf
      (dstSlot.bitmap.pitch * (dstSlot.bitmap_top - srcSlot.bitmap_top) +
        4 * (srcSlot.bitmap_left - dstSlot.bitmap_left))
      dstSlot.bitmap.pitch srcSlot.bitmap.width srcSlot.bitmap.rows i hi

/-- A fully-opaque 1x1 BGRA source layer (coverage 255 everywhere). -/
def srcC8 : FT_GlyphSlot :=
  ⟨0, 1, ⟨1, 1, 1, some (fun _ => 255), 2, 256⟩, false, 0⟩

/-- A transparent 1x1 BGRA canvas at the same origin. -/
def dstC8 : FT_GlyphSlot :=
  ⟨0, 1, ⟨1, 1, 4, some (fun _ => 0), 7, 256⟩, false, 0⟩

/-- A face whose palette entry 0 is opaque red (BGRA 0,0,255,255). -/
def faceC8 : Face :=
  { num_glyphs := 1, num_palette_entries := 1, colr := none,
    palette := fun _ => (⟨0, 0, 255, 255⟩ : FT_Color) }

/-- Concrete instantiation of C8: blending a fully-opaque 1x1 red layer
(colour alpha 255) onto a transparent canvas yields BGRA (0,0,255,255) —
the layer colour with alpha 255 exactly. -/
theorem claim_C8_witness :
    ∃ newbuf : Int → Nat,
      tt_face_colr_blend_layer faceC8 0 dstC8 srcC8 true =
        (true, { dstC8 with
          bitmap := { dstC8.bitmap with buffer := some newbuf } }) ∧
      newbuf 0 = 0 ∧ newbuf 1 = 0 ∧ newbuf 2 = 255 ∧ newbuf 3 = 255 := by
  obtain ⟨nb, heq, hval, -⟩ :=
    claim_C8 faceC8 0 dstC8 srcC8 (fun _ => 0) (fun _ => 255) 0 0 255 255 true
      rfl rfl rfl (by decide) (by decide) (by decide) (by decide) (by decide)
      (fun i => by norm_num) (fun i => by norm_num)
      (by norm_num) (by norm_num) (by norm_num) (by norm_num)
  obtain ⟨h0, h1, h2, h3⟩ := hval 0 0 (by decide) (by decide)
  refine ⟨nb, heq, ?_, ?_, ?_, ?_⟩
  · norm_num [dstC8, srcC8] at h0
    exact h0
  · norm_num [dstC8, srcC8] at h1
    exact h1
  · norm_num [dstC8, srcC8] at h2
    exact h2
  · norm_num [dstC8, srcC8] at h3
    exact h3

/-- C9: when the layer's footprint is not contained in the canvas bounds
(the union box differs from the canvas box), a failed allocation makes
both the growth step and the whole `tt_face_colr_blend_layer` call return
the error with the slot — buffer, bounds and pitch — unchanged; a
successful allocation reallocates the canvas to the union bounding box
(origin `(x_min, y_max)`, size `(x_max-x_min) x (y_max-y_min)`, pitch
`width*4`) and preserves every previously-written byte at its original
canvas-relative position: row `y`, byte `k` of the old canvas reappears at
`growQBase + y*newPitch + k` in the new buffer. -/
theorem claim_C9 (face : Face) (color_index : Nat) (dstSlot srcSlot : FT_GlyphSlot)
    (dbuf : Int → Nat)
    (hdb : dstSlot.bitmap.buffer = some dbuf)
    (hgrow : unionLeft dstSlot srcSlot ≠ dstSlot.bitmap_left ∨
      unionRight dstSlot srcSlot ≠
        dstSlot.bitmap_left + (dstSlot.bitmap.width : Int) ∨
      unionBottom dstSlot srcSlot ≠
        dstSlot.bitmap_top - (dstSlot.bitmap.rows : Int) ∨
      unionTop dstSlot srcSlot ≠ dstSlot.bitmap_top) :
    growCanvas dstSlot srcSlot dbuf false = (false, dstSlot) ∧
    tt_face_colr_blend_layer face color_index dstSlot srcSlot false =
      (false, dstSlot) ∧
    ∃ newbuf : Int → Nat,
      growCanvas dstSlot srcSlot dbuf true = (true, { dstSlot with
        bitmap_top := unionTop dstSlot srcSlot,
        bitmap_left := unionLeft dstSlot srcSlot,
        bitmap := { dstSlot.bitmap with
          width := unionWidth dstSlot srcSlot,
          rows := unionRows dstSlot srcSlot,
          pitch := (unionPitch dstSlot srcSlot : Int),
          buffer := some newbuf },
        own_bitmap := true,
        format := FT_GLYPH_FORMAT_BITMAP }) ∧
      ∀ y k : Nat, y < dstSlot.bitmap.rows → k < dstSlot.bitmap.width * 4 →
        newbuf (growQBase dstSlot srcSlot +
            y * (unionPitch dstSlot srcSlot : Int) + k) =
          dbuf (y * dstSlot.bitmap.pitch + k) := by
  have hcond : min dstSlot.bitmap_left srcSlot.bitmap_left ≠ dstSlot.bitmap_left ∨
      max (dstSlot.bitmap_left + (dstSlot.bitmap.width : Int))
          (srcSlot.bitmap_left + (srcSlot.bitmap.width : Int)) ≠
        dstSlot.bitmap_left + (dstSlot.bitmap.width : Int) ∨
      min (dstSlot.bitmap_top - (dstSlot.bitmap.rows : Int))
          (srcSlot.bitmap_top - (srcSlot.bitmap.rows : Int)) ≠
        dstSlot.bitmap_top - (dstSlot.bitmap.rows : Int) ∨
      max dstSlot.bitmap_top srcSlot.bitmap_top ≠ dstSlot.bitmap_top := by
    simpa [unionLeft, unionRight, unionBottom, unionTop] using hgrow
  have h1 : growCanvas dstSlot srcSlot dbuf false = (false, dstSlot) := by
    simp only [growCanvas]
    rw [if_pos hcond]
    rfl
  refine ⟨h1, ?_, ?_⟩
  · simp only [tt_face_colr_blend_layer, hdb, h1]
  · refine ⟨copyRows dbuf dstSlot.bitmap.pitch (fun _ => 0)
      (growQBase dstSlot srcSlot) (unionPitch dstSlot srcSlot : Int)
      (dstSlot.bitmap.width * 4) dstSlot.bitmap.rows, ?_, ?_⟩
    · simp only [growCanvas]
      rw [if_pos hcond, if_neg (by decide)]
      simp only [unionWidth, unionRows, unionPitch, growQBase, unionLeft,
        unionRight, unionBottom, unionTop]
    · intro y k hy hk
      have h2 : dstSlot.bitmap_left + (dstSlot.bitmap.width : Int) ≤
          unionRight dstSlot srcSlot := le_max_left _ _
      have h3 : unionLeft dstSlot srcSlot ≤ dstSlot.bitmap_left :=
        min_le_left _ _
      have h4 : dstSlot.bitmap.width ≤ unionWidth dstSlot srcSlot := by
        simp only [unionWidth]
        omega
      have hlen : ((dstSlot.bitmap.width * 4 : Nat) : Int) ≤
          (unionPitch dstSlot srcSlot : Int) := by
        simp only [unionPitch]
        push_cast
        omega
      exact copyRows_at dbuf dstSlot.bitmap.pitch (fun _ => 0)
        (growQBase dstSlot srcSlot) (unionPitch dstSlot srcSlot : Int)
        (dstSlot.bitmap.width * 4) dstSlot.bitmap.rows hlen y k hy hk

/-- A 1x1 canvas at origin (0,1) whose four bytes are 100,101,102,103. -/
def dstC9 : FT_GlyphSlot :=
  ⟨0, 1, ⟨1, 1, 4, some (fun i => 100 + i.toNat), 7, 256⟩, false, 0⟩

/-- A 1x1 layer at origin (1,1): one column to the right of the canvas,
forcing canvas growth to the 2x1 union box. -/
def srcC9 : FT_GlyphSlot :=
  ⟨1, 1, ⟨1, 1, 1, some (fun _ => 255), 2, 256⟩, false, 0⟩

/-- A face for the C9 instantiation (the palette colour is irrelevant to
the growth step). -/
def faceC9 : Face :=
  { num_glyphs := 1, num_palette_entries := 1, colr := none,
    palette := fun _ => (⟨0, 0, 255, 255⟩ : FT_Color) }

/-- Concrete instantiation of C9: growing a 1x1 canvas at (0,1) by a 1x1
layer at (1,1) with allocation failure returns the error and the untouched
slot; with allocation success it yields the 2x1 union canvas (origin
(0,1), pitch 8) in which the old canvas's first byte 100 reappears at its
canvas-relative position, offset 0. -/
theorem claim_C9_witness :
    growCanvas dstC9 srcC9 (fun i => 100 + i.toNat) false = (false, dstC9) ∧
    tt_face_colr_blend_layer faceC9 0 dstC9 srcC9 false = (false, dstC9) ∧
    ∃ newbuf : Int → Nat,
      growCanvas dstC9 srcC9 (fun i => 100 + i.toNat) true = (true, { dstC9 with
        bitmap_top := 1,
        bitmap_left := 0,
        bitmap := { dstC9.bitmap with
          width := 2, rows := 1, pitch := 8, buffer := some newbuf },
        own_bitmap := true,
        format := FT_GLYPH_FORMAT_BITMAP }) ∧
      newbuf 0 = 100 := by
  obtain ⟨h1, h2, nb, heq, hpres⟩ :=
    claim_C9 faceC9 0 dstC9 srcC9 (fun i => 100 + i.toNat) rfl (by decide)
  refine ⟨h1, h2, nb, ?_, ?_⟩
  · rw [heq]
    rfl
  · have h := hpres 0 0 (by decide) (by decide)
    norm_num [growQBase, unionPitch, unionWidth, unionTop, unionLeft,
      unionRight, dstC9, srcC9] at h
    exact h

end TTColr
